import Mathlib

set_option linter.unusedVariables false

/-!
Shallow embedding of ftp_ZAN.py (CodeZANKO/FTP-ZAN).

Result dictionaries are modelled as a fixed-field structure whose fields are
three-valued: a key can be absent, present with value None, or present with a
value; this captures Python dict lookups (KeyError on absent keys) and
dict.get.  Network and filesystem behaviour is supplied by explicit
environment records whose fields say, for each library call the program
makes, whether it returns a value or raises which exception.  Exceptions are
values of an inductive type and the except-clause dispatch of the source is
translated clause by clause, in source order.
-/

/-- One field of a Python result dictionary: the key may be absent
(missing), present with value None (pyNone), or present with a value. -/
inductive Entry (α : Type) where
  | missing
  | pyNone
  | val (a : α)
deriving DecidableEq, Repr

/-- Exceptions raised by the modelled library calls and dictionary lookups.
Every constructor models a Python class deriving from Exception:
ftpError is any ftplib.Error other than error_perm; errorPerm is
ftplib.error_perm; osTimeout is socket.timeout and osGaierror is
socket.gaierror (both OSError subclasses in Python 3); osError is any other
OSError or EOFError; authExc is paramiko.AuthenticationException and sshExc
any other paramiko.SSHException; keyErr is KeyError, valueErr is ValueError,
otherExc any other Exception. -/
inductive PyExc where
  | ftpError (msg : String)
  | errorPerm (msg : String)
  | osTimeout
  | osGaierror
  | osError (msg : String)
  | authExc
  | sshExc (msg : String)
  | keyErr (key : String)
  | valueErr (msg : String)
  | otherExc (msg : String)
deriving DecidableEq, Repr

/-- str(e) for the modelled exceptions; str of a KeyError is the repr of the
missing key. -/
def excStr : PyExc → String
  | .ftpError m => m
  | .errorPerm m => m
  | .osTimeout => "timed out"
  | .osGaierror => "Name or service not known"
  | .osError m => m
  | .authExc => "Authentication failed."
  | .sshExc m => m
  | .keyErr k => "'" ++ k ++ "'"
  | .valueErr m => m
  | .otherExc m => m

/-- Membership in ftplib.all_errors = (ftplib.Error, OSError, EOFError).
socket.timeout and socket.gaierror are OSError subclasses, so they are
matched by an all_errors clause before any later socket-specific clause. -/
def isFtplibAll : PyExc → Bool
  | .ftpError _ => true
  | .errorPerm _ => true
  | .osTimeout => true
  | .osGaierror => true
  | .osError _ => true
  | _ => false

def isErrorPerm : PyExc → Bool
  | .errorPerm _ => true
  | _ => false

/-- IOError is an alias of OSError in Python 3. -/
def isIOError : PyExc → Bool
  | .osTimeout => true
  | .osGaierror => true
  | .osError _ => true
  | _ => false

def isAuthExc : PyExc → Bool
  | .authExc => true
  | _ => false

/-- paramiko.SSHException and its subclasses (AuthenticationException is one,
but the source checks the AuthenticationException clause first). -/
def isSshExc : PyExc → Bool
  | .authExc => true
  | .sshExc _ => true
  | _ => false

/-- Every modelled exception class derives from Exception; BaseException
raisables such as KeyboardInterrupt are outside the model. -/
def isException : PyExc → Bool := fun _ => true

/-- The result dictionary shared by FTPChecker, SFTPChecker and the
schedulers (the keys appearing at lines 99-115, 212-228, 362-373, 428-439
of ftp_ZAN.py).  Times are in milliseconds, modelled as naturals. -/
structure Rec where
  host : Entry String
  port : Entry Nat
  username : Entry String
  protocol : Entry String
  timestamp : Entry String
  connection : Entry Bool
  connection_time : Entry Nat
  authentication : Entry Bool
  auth_time : Entry Nat
  path_exists : Entry Bool
  path_type : Entry String
  path_check_time : Entry Nat
  welcome_message : Entry String
  features : Entry (List String)
  errors : Entry (List String)
  total_time : Entry Nat
deriving DecidableEq, Repr

/-- The list held by the errors key (empty when the key is absent or None;
both checker constructors initialise it to an empty list). -/
def errsOf : Entry (List String) → List String
  | .val l => l
  | _ => []

/-- self.results['errors'].append(msg). -/
def appendError (r : Rec) (msg : String) : Rec :=
  { r with errors := .val (errsOf r.errors ++ [msg]) }

/-- Whether a key is present in the dictionary. -/
def present {α : Type} : Entry α → Bool
  | .missing => false
  | _ => true

/-- The value behind a present key, with None collapsed to Option.none. -/
def optOf {α : Type} : Entry α → Option α
  | .missing => none
  | .pyNone => none
  | .val a => some a

/-- result[k]: raises KeyError when the key is absent, else yields the value
(None becomes Option.none). -/
def reqEntry {α : Type} (k : String) (e : Entry α) : Except PyExc (Option α) :=
  match e with
  | .missing => .error (.keyErr k)
  | .pyNone => .ok none
  | .val a => .ok (some a)

/-- Python truthiness of a Bool-or-None value. -/
def truthyB : Option Bool → Bool
  | none => false
  | some b => b

/-- Python truthiness of a number-or-None value (0 is falsy). -/
def truthyN : Option Nat → Bool
  | none => false
  | some n => decide (n ≠ 0)

/-- Python truthiness of a string-or-None value (the empty string is falsy). -/
def truthyS : Option String → Bool
  | none => false
  | some s => decide (s ≠ "")

/-- Python truthiness of a list-or-None value (the empty list is falsy). -/
def truthyL : Option (List String) → Bool
  | none => false
  | some l => decide (l ≠ [])


/-! ### Python string primitives (implemented over the character list so
that the kernel can evaluate them on concrete inputs) -/

/-- Python str.split with a single-character separator: empty pieces are
kept and the result is never empty. -/
def splitCharList (c : Char) : List Char → List (List Char)
  | [] => [[]]
  | ch :: rest =>
    match splitCharList c rest with
    | [] => [[ch]]
    | g :: gs => if ch = c then [] :: g :: gs else (ch :: g) :: gs

/-- Python s.split(sep) for a one-character separator. -/
def pySplit (c : Char) (s : String) : List String :=
  (splitCharList c s.data).map String.mk

/-- Python str.strip(): whitespace removed from both ends. -/
def pyTrim (s : String) : String :=
  String.mk (((s.data.dropWhile Char.isWhitespace).reverse.dropWhile
    Char.isWhitespace).reverse)

/-- Python s.startswith(pre). -/
def pyStartsWith (pre s : String) : Bool :=
  pre.data.isPrefixOf s.data

/-- Python sep.join(parts). -/
def pyJoin (sep : String) : List String → String
  | [] => ""
  | x :: xs => xs.foldl (fun acc y => acc ++ sep ++ y) x

/-- int() of an all-digit string (the model applies it only after the
isdigit guard the source uses, or reports ValueError). -/
def digitsToNat (s : String) : Nat :=
  s.data.foldl (fun n c => n * 10 + (c.toNat - 48)) 0

/-! ## FTPChecker (lines 90-201) -/

/-- Behaviour of the ftplib client calls made by one FTPChecker.check
invocation: each field is the outcome of the corresponding call, in the
order the source makes them; the Ms fields are the elapsed-time readings.
The context-manager exit of the with-block (quit and close) is not an
exception source in the model: ftplib itself swallows OSError and EOFError
there, and anything else it raised would still land in the same top-level
except clauses, only adding one more captured error. -/
structure FtpEnv where
  connect : Except PyExc Unit
  connectMs : Nat
  getwelcome : Except PyExc String
  login : Except PyExc Unit
  authMs : Nat
  voidcmdFeat : Except PyExc Unit
  sendFeat1 : Except PyExc String
  sendFeat2 : Except PyExc String
  cwdPath : Except PyExc Unit
  cwdParent : Except PyExc Unit
  nlst : Except PyExc (List String)
  pathMs : Nat
  totalMs : Nat
deriving Repr

/-- FTPChecker.__init__ (lines 91-115): the initial results dictionary. -/
def initFtpRec (host username : String) (port : Nat) (ts : String) : Rec :=
  { host := .val host, port := .val port, username := .val username,
    protocol := .val "FTP", timestamp := .val ts,
    connection := .val false, connection_time := .pyNone,
    authentication := .val false, auth_time := .pyNone,
    path_exists := .pyNone, path_type := .pyNone, path_check_time := .pyNone,
    welcome_message := .pyNone, features := .val [], errors := .val [],
    total_time := .missing }

/-- Lines 130-133: the welcome banner is fetched under a bare
try/except that swallows every failure. -/
def stWelcome (r : Rec) (env : FtpEnv) : Rec :=
  match env.getwelcome with
  | .ok w => { r with welcome_message := .val w }
  | .error _ => r

/-- Lines 141-156: the FEAT capability probe.  A voidcmd failure of class
ftplib.error_perm is swallowed; any other exception escapes to the top-level
handlers.  The two inner sendcmd calls sit under a bare try/except that
swallows everything.  A 211- multi-line reply is split on newlines, the
first and last lines dropped, the remainder stripped and blank lines
discarded. -/
def stFeat (r : Rec) (env : FtpEnv) : Rec × Option PyExc :=
  match env.voidcmdFeat with
  | .error e => if isErrorPerm e then (r, none) else (r, some e)
  | .ok _ =>
    match env.sendFeat1 with
    | .error _ => (r, none)
    | .ok _ =>
      match env.sendFeat2 with
      | .error _ => (r, none)
      | .ok resp =>
        if pyStartsWith "211-" resp then
          let fs := ((pySplit (Char.ofNat 10) resp).drop 1).dropLast
          let stripped := fs.filterMap fun f => if pyTrim f = "" then none else some (pyTrim f)
          ({ r with features := .val stripped }, none)
        else (r, none)

/-- Python: the parent directory string, built by joining all but the last
slash-separated component, defaulting to the root when that join is empty. -/
def parentOf (path : String) : String :=
  let pd := pyJoin "/" ((pySplit (Char.ofNat 47) path).dropLast)
  if pd = "" then "/" else pd

/-- Python: the final slash-separated component of the path. -/
def fileOf (path : String) : String :=
  (pySplit (Char.ofNat 47) path).getLastD ""

/-- Lines 158-188: the FTP path check.  cwd on the path classifies a
directory; on error_perm the parent is listed and the filename searched for;
error_perm while touching the parent is reported as a parent-access error;
any other exception inside the stage is caught by the stage-level
except-Exception clause as a path check error.  The finally clause records
path_check_time on every exit, and nothing escapes this stage. -/
def stPath (r : Rec) (path : String) (env : FtpEnv) : Rec :=
  let r1 :=
    match env.cwdPath with
    | .ok _ => { r with path_exists := .val true, path_type := .val "directory" }
    | .error e =>
      if isErrorPerm e then
        match env.cwdParent with
        | .ok _ =>
          match env.nlst with
          | .ok files =>
            if files.contains (fileOf path) then
              { r with path_exists := .val true, path_type := .val "file" }
            else
              appendError { r with path_exists := .val false }
                ("Path '" ++ path ++ "' not found")
          | .error e2 =>
            if isErrorPerm e2 then
              appendError { r with path_exists := .val false }
                ("Error accessing parent directory: " ++ excStr e2)
            else
              appendError { r with path_exists := .val false }
                ("Path check error: " ++ excStr e2)
        | .error e2 =>
          if isErrorPerm e2 then
            appendError { r with path_exists := .val false }
              ("Error accessing parent directory: " ++ excStr e2)
          else
            appendError { r with path_exists := .val false }
              ("Path check error: " ++ excStr e2)
      else
        appendError { r with path_exists := .val false }
          ("Path check error: " ++ excStr e)
  { r1 with path_check_time := .val env.pathMs }

/-- The dictionary right after a successful connect (lines 124-133):
connection_time and the connection flag are set, then the welcome banner is
fetched. -/
def ftpAfterConnect (r0 : Rec) (env : FtpEnv) : Rec :=
  stWelcome { r0 with connection_time := .val env.connectMs,
                      connection := .val true } env

/-- The dictionary right after a successful login (lines 136-139):
auth_time and the authentication flag are set. -/
def ftpAfterLogin (r0 : Rec) (env : FtpEnv) : Rec :=
  { ftpAfterConnect r0 env with auth_time := .val env.authMs,
                                authentication := .val true }

/-- The body of the outer try of FTPChecker.check (lines 120-188), threading
the results dictionary and the exception escaping towards the top-level
handlers, if any.  The path check runs only when check_path is truthy. -/
def ftpBody (r0 : Rec) (checkPath : Option String) (env : FtpEnv) :
    Rec × Option PyExc :=
  match env.connect with
  | .error e => (r0, some e)
  | .ok _ =>
    match env.login with
    | .error e => (ftpAfterConnect r0 env, some e)
    | .ok _ =>
      match stFeat (ftpAfterLogin r0 env) env with
      | (r2, some e) => (r2, some e)
      | (r2, none) =>
        match checkPath with
        | some path => if path ≠ "" then (stPath r2 path env, none) else (r2, none)
        | none => (r2, none)

/-- Lines 190-197: the except clauses of FTPChecker.check, in source order.
The last clause catches class Exception; anything not matched by any clause
would propagate, which the result type records as an error. -/
def ftpHandlers (r : Rec) (e : PyExc) : Except PyExc Rec :=
  if isFtplibAll e then .ok (appendError r ("FTP error: " ++ excStr e))
  else if e = .osTimeout then .ok (appendError r "Connection timed out")
  else if e = .osGaierror then .ok (appendError r "Hostname resolution failed")
  else if isException e then .ok (appendError r ("Unexpected error: " ++ excStr e))
  else .error e

/-- FTPChecker.check from a given current results dictionary (check never
re-initialises the dictionary, so a repeated call on the same instance
starts from the state the previous call left behind).  Line 199 records
total_time after the handlers, on every handled path. -/
def ftpCheckFromE (r0 : Rec) (checkPath : Option String) (env : FtpEnv) :
    Except PyExc Rec :=
  match ftpBody r0 checkPath env with
  | (r, none) => .ok { r with total_time := .val env.totalMs }
  | (r, some e) =>
    match ftpHandlers r e with
    | .ok r2 => .ok { r2 with total_time := .val env.totalMs }
    | .error e2 => .error e2

/-- FTPChecker(host, username, password, port, timeout, check_path).check()
on a freshly constructed instance. -/
def ftpCheckE (host username password : String) (port : Nat)
    (checkPath : Option String) (ts : String) (env : FtpEnv) :
    Except PyExc Rec :=
  ftpCheckFromE (initFtpRec host username port ts) checkPath env

/-! ## SFTPChecker (lines 203-282) -/

/-- Behaviour of the paramiko client calls made by one SFTPChecker.check
invocation.  connect performs transport setup and authentication in one
call; statMode yields st_mode (None when the server reports no mode). -/
structure SftpEnv where
  connect : Except PyExc Unit
  connectMs : Nat
  openSftp : Except PyExc Unit
  statMode : Except PyExc (Option Nat)
  pathMs : Nat
  totalMs : Nat
deriving Repr

/-- SFTPChecker.__init__ (lines 204-228). -/
def initSftpRec (host username : String) (port : Nat) (ts : String) : Rec :=
  { initFtpRec host username port ts with protocol := .val "SFTP" }

/-- Lines 244-263: the SFTP path check.  stat success marks existence, the
directory bit of st_mode (0o40000) classifies the type; IOError means not
found; everything else raised inside the stage, the open_sftp call included,
is caught by the stage-level except-Exception clause as a path check error.
The finally clauses close the sftp channel and record path_check_time on
every exit; nothing escapes this stage. -/
def sftpPath (r : Rec) (path : String) (env : SftpEnv) : Rec :=
  let r1 :=
    match env.openSftp with
    | .error e =>
      appendError { r with path_exists := .val false }
        ("Path check error: " ++ excStr e)
    | .ok _ =>
      match env.statMode with
      | .ok mode =>
        let r2 := { r with path_exists := .val true }
        match mode with
        | some m =>
          { r2 with path_type := .val (if m &&& 0o40000 ≠ 0 then "directory" else "file") }
        | none => r2
      | .error e =>
        if isIOError e then
          appendError { r with path_exists := .val false }
            ("Path '" ++ path ++ "' not found")
        else
          appendError { r with path_exists := .val false }
            ("Path check error: " ++ excStr e)
  { r1 with path_check_time := .val env.pathMs }

/-- The dictionary right after a successful paramiko connect (lines
236-242): the connect call binds connection and authentication together, so
both flags are set at once. -/
def sftpAfterConnect (r0 : Rec) (env : SftpEnv) : Rec :=
  { r0 with connection_time := .val env.connectMs,
            connection := .val true,
            authentication := .val true }

/-- The body of the outer try of SFTPChecker.check (lines 234-263); the
path check runs only when check_path is truthy. -/
def sftpBody (r0 : Rec) (checkPath : Option String) (env : SftpEnv) :
    Rec × Option PyExc :=
  match env.connect with
  | .error e => (r0, some e)
  | .ok _ =>
    let r := sftpAfterConnect r0 env
    match checkPath with
    | some path => if path ≠ "" then (sftpPath r path env, none) else (r, none)
    | none => (r, none)

/-- Lines 265-274: the except clauses of SFTPChecker.check, in source
order.  The ssh.close() in the finally clause is a paramiko call documented
non-raising, so it is not an exception source in the model. -/
def sftpHandlers (r : Rec) (e : PyExc) : Except PyExc Rec :=
  if isAuthExc e then .ok (appendError r "Authentication failed")
  else if isSshExc e then .ok (appendError r ("SSH error: " ++ excStr e))
  else if e = .osTimeout then .ok (appendError r "Connection timed out")
  else if e = .osGaierror then .ok (appendError r "Hostname resolution failed")
  else if isException e then .ok (appendError r ("Unexpected error: " ++ excStr e))
  else .error e

/-- Lines 279-280, run after the try/except on every handled path:
total_time is recorded, then auth_time is overwritten with connection_time
(for SFTP, connection and authentication happen together). -/
def sftpFinal (r : Rec) (env : SftpEnv) : Rec :=
  let r2 := { r with total_time := .val env.totalMs }
  { r2 with auth_time := r2.connection_time }

/-- SFTPChecker.check from a given current results dictionary. -/
def sftpCheckFromE (r0 : Rec) (checkPath : Option String) (env : SftpEnv) :
    Except PyExc Rec :=
  match sftpBody r0 checkPath env with
  | (r, none) => .ok (sftpFinal r env)
  | (r, some e) =>
    match sftpHandlers r e with
    | .ok r2 => .ok (sftpFinal r2 env)
    | .error e2 => .error e2

/-- SFTPChecker(host, username, password, port, timeout, check_path).check()
on a freshly constructed instance. -/
def sftpCheckE (host username password : String) (port : Nat)
    (checkPath : Option String) (ts : String) (env : SftpEnv) :
    Except PyExc Rec :=
  sftpCheckFromE (initSftpRec host username port ts) checkPath env

/-! ## BruteForcer (lines 284-375) -/

/-- One combination dictionary built at lines 309-315. -/
structure Combo where
  host : String
  port : Nat
  username : String
  password : String
  protocol : Nat
deriving DecidableEq, Repr

/-- The inner two loops of the combination generation (lines 307-315):
for one port, every username paired with every password, usernames outer,
passwords inner. -/
def innerCombos (host : String) (protocol : Nat) (port : Nat)
    (username_list password_list : List String) : List Combo :=
  username_list.flatMap fun username =>
    password_list.map fun password =>
      { host := host, port := port, username := username,
        password := password, protocol := protocol }

/-- The full combination list (lines 305-315): ports outermost, then
usernames, then passwords. -/
def mkCombos (host : String) (protocol : Nat)
    (username_list password_list : List String) (port_list : List Nat) : List Combo :=
  port_list.flatMap fun port =>
    innerCombos host protocol port username_list password_list

/-- The synthetic failure record built by the except blocks at lines 362-373
(brute_force) and 428-439 (check_servers); the two dict literals are
identical.  Exactly eight keys are present. -/
def errorResult (host : String) (port : Nat) (username : String)
    (protocolNum : Nat) (e : PyExc) (ts : String) : Rec :=
  { host := .val host, port := .val port, username := .val username,
    protocol := .val (if protocolNum = 0 then "FTP" else "SFTP"),
    timestamp := .val ts,
    connection := .val false, authentication := .val false,
    errors := .val ["Check failed: " ++ excStr e],
    connection_time := .missing, auth_time := .missing,
    path_exists := .missing, path_type := .missing, path_check_time := .missing,
    welcome_message := .missing, features := .missing, total_time := .missing }

/-- One iteration of the as_completed loop of brute_force (lines 346-373).
future.result() either yields the checker record or re-raises; the progress
code then reads result['connection'] and, only when that is truthy (Python
and short-circuits), result['authentication'].  A KeyError from those
lookups is caught by the same except block, which appends a second,
synthetic record for the combo; the prints themselves only read combo keys,
which always exist. -/
def bruteStep (oracle : Combo → Except PyExc Rec) (ts : String)
    (acc : List Rec) (combo : Combo) : List Rec :=
  match oracle combo with
  | .error e =>
    acc ++ [errorResult combo.host combo.port combo.username combo.protocol e ts]
  | .ok result =>
    let acc2 := acc ++ [result]
    match reqEntry "connection" result.connection with
    | .error e =>
      acc2 ++ [errorResult combo.host combo.port combo.username combo.protocol e ts]
    | .ok c =>
      if truthyB c then
        match reqEntry "authentication" result.authentication with
        | .error e =>
          acc2 ++ [errorResult combo.host combo.port combo.username combo.protocol e ts]
        | .ok _ => acc2
      else acc2

/-- The as_completed collection loop of brute_force, over the completion
order of the submitted futures. -/
def bruteLoop (oracle : Combo → Except PyExc Rec) (ts : String)
    (order : List Combo) (acc : List Rec) : List Rec :=
  match order with
  | [] => acc
  | c :: rest => bruteLoop oracle ts rest (bruteStep oracle ts acc c)

/-- What one brute_force call produces: the total printed before any probe
runs (line 301-302), the combination list built before submission, and the
collected results. -/
structure BruteOutcome where
  announcedTotal : Nat
  submitted : List Combo
  results : List Rec
deriving Repr

/-- BruteForcer.brute_force (lines 294-375).  A falsy port list (None or
empty) is replaced by the protocol default before anything else; the total
is computed from the list lengths and printed before the pool starts; the
oracle gives each submitted future's outcome (the checker record it returns,
or the exception it raises); order is the completion order of the futures, a
permutation of the submitted combination list. -/
def bruteForce (host : String) (protocol : Nat)
    (username_list password_list : List String) (port_list : List Nat)
    (oracle : Combo → Except PyExc Rec) (order : List Combo) (ts : String) :
    BruteOutcome :=
  let ports := if port_list = [] then (if protocol = 0 then [21] else [22]) else port_list
  let total := username_list.length * password_list.length * ports.length
  let combos := mkCombos host protocol username_list password_list ports
  { announcedTotal := total, submitted := combos,
    results := bruteLoop oracle ts order [] }

/-! ## AdvancedFTPChecker.check_servers (lines 377-442) -/

/-- A server dictionary as consumed by check_servers.  host, port, username,
password and protocol are set by every producer (the FileZilla parser and
both main-mode constructions); the type key is set only by the FileZilla
parser, so it is absent for the single-host-mode server. -/
structure Server where
  host : String
  port : Nat
  username : String
  password : String
  protocol : Nat
  type : Entry String
deriving DecidableEq, Repr

/-- Only servers whose protocol tag is 0 or 1 are submitted to the pool
(lines 388-412); any other tag is silently skipped. -/
def submittedServers (servers : List Server) : List Server :=
  servers.filter fun s => s.protocol = 0 || s.protocol = 1

/-- The condition of line 420: result['connection'] and, only when that is
truthy, result['authentication']. -/
def serversCond (result : Rec) : Except PyExc Bool := do
  let c ← reqEntry "connection" result.connection
  if truthyB c then
    let a ← reqEntry "authentication" result.authentication
    pure (truthyB a)
  else
    pure false

/-- The success print of lines 421-422: the f-string reads the server keys
(always present except type), then server['type'], then
result['connection_time'] and result['auth_time']. -/
def serversSuccessPrint (s : Server) (result : Rec) : Except PyExc Unit := do
  let _ ← reqEntry "type" s.type
  let _ ← reqEntry "connection_time" result.connection_time
  let _ ← reqEntry "auth_time" result.auth_time
  pure ()

/-- The failure prints of lines 424-427: server['type'], then
result['errors']. -/
def serversFailPrint (s : Server) (result : Rec) : Except PyExc Unit := do
  let _ ← reqEntry "type" s.type
  let _ ← reqEntry "errors" result.errors
  pure ()

/-- The except block of lines 428-440: the synthetic record is appended,
then the error print reads server['type']; when that key is absent the
KeyError raised by the print escapes the collection loop. -/
def serversGuard (ts : String) (acc : List Rec) (s : Server) (e : PyExc) :
    List Rec × Option PyExc :=
  let acc2 := acc ++ [errorResult s.host s.port s.username s.protocol e ts]
  match reqEntry "type" s.type with
  | .error e2 => (acc2, some e2)
  | .ok _ => (acc2, none)

/-- One iteration of the as_completed loop of check_servers (lines 414-440).
Everything raised inside the try block — future.result() re-raising, or a
KeyError from the progress prints after the record was already appended —
lands in the guard. -/
def serversStep (oracle : Server → Except PyExc Rec) (ts : String)
    (acc : List Rec) (s : Server) : List Rec × Option PyExc :=
  match oracle s with
  | .error e => serversGuard ts acc s e
  | .ok result =>
    let acc2 := acc ++ [result]
    match serversCond result with
    | .error e => serversGuard ts acc2 s e
    | .ok true =>
      match serversSuccessPrint s result with
      | .error e => serversGuard ts acc2 s e
      | .ok _ => (acc2, none)
    | .ok false =>
      match serversFailPrint s result with
      | .error e => serversGuard ts acc2 s e
      | .ok _ => (acc2, none)

/-- The collection loop of check_servers; the second component is an
exception that escaped the loop and terminated the batch. -/
def serversLoop (oracle : Server → Except PyExc Rec) (ts : String)
    (order : List Server) (acc : List Rec) : List Rec × Option PyExc :=
  match order with
  | [] => (acc, none)
  | s :: rest =>
    match serversStep oracle ts acc s with
    | (acc2, some e) => (acc2, some e)
    | (acc2, none) => serversLoop oracle ts rest acc2

/-- AdvancedFTPChecker.check_servers (lines 381-442): order is the
completion order of the submitted futures, a permutation of
submittedServers servers. -/
def checkServers (oracle : Server → Except PyExc Rec) (ts : String)
    (servers : List Server) (order : List Server) : List Rec × Option PyExc :=
  serversLoop oracle ts order []

/-! ## Configuration resolution in main (lines 610-740) -/

/-- Filesystem and parser behaviour seen by main: the lines of each readable
file, whether a path names a file, and the outcome of the FileZilla XML
parse. -/
structure FsEnv where
  files : String → Option (List String)
  isFile : String → Bool
  filezilla : Except PyExc (List Server)

/-- read_wordlist (lines 610-617): lines are stripped; blank lines and lines
whose raw text starts with a hash are dropped; any read error is printed and
an empty list returned. -/
def readWordlist (env : FsEnv) (path : String) : List String :=
  match env.files path with
  | some lines =>
    lines.filterMap fun line =>
      if pyTrim line ≠ "" ∧ ¬ (pyStartsWith "#" line = true) then some (pyTrim line)
      else none
  | none => []

/-- int(p) at line 700: a non-numeric entry raises ValueError (uncaught in
the source, so it crashes the run with a traceback). -/
def pyInt (s : String) : Except PyExc Nat :=
  let t := pyTrim s
  if t ≠ "" ∧ t.data.all Char.isDigit then .ok (digitsToNat t)
  else .error (.valueErr ("invalid literal for int() with base 10: " ++ s))

/-- Lines 688-695: the combo file is split into two parallel lists, one of
usernames and one of passwords, each combo line split on its first colon;
lines without a colon are dropped. -/
def comboLists (combos : List String) : List String × List String :=
  combos.foldl
    (fun acc combo =>
      match pySplit (Char.ofNat 58) combo with
      | u :: p :: rest =>
        (acc.1 ++ [pyTrim u], acc.2 ++ [pyTrim (pyJoin ":" (p :: rest))])
      | _ => acc)
    ([], [])

/-- args.port if args.port else (21 if args.protocol == 0 else 22), at
lines 704 and 729: Python truthiness makes an explicit port 0 fall back to
the protocol default as well. -/
def pyPortDefault (port : Option Nat) (protocol : Nat) : Nat :=
  match port with
  | some p => if p ≠ 0 then p else if protocol = 0 then 21 else 22
  | none => if protocol = 0 then 21 else 22

/-- The command-line arguments main consumes (argparse restricts protocol
to 0 or 1). -/
structure Args where
  filezilla_xml : Option String
  host : Option String
  brute_force : Bool
  port : Option Nat
  username : Option String
  password : Option String
  protocol : Nat
  user_list : Option String
  pass_list : Option String
  combo_list : Option String
  port_list : Option String
deriving Repr

/-- How the configuration phase of main ends: sys.exit with a code, a crash
from an uncaught exception, or entry into one of the two scheduling paths
with the resolved inputs. -/
inductive RunPlan where
  | exited (code : Nat)
  | crashed (e : PyExc)
  | bruteRun (host : String) (usernames passwords : List String) (ports : List Nat)
  | serversRun (servers : List Server)
deriving DecidableEq, Repr

/-- The configuration phase of main (lines 661-740): everything up to the
point where a scheduler is invoked.  Brute mode requires a host; wordlists
fall back to the single credential, then to built-in defaults; a combo list
overrides both credential lists; a port-list file is parsed with int (crash
on junk) while a comma-separated port list keeps only all-digit entries
(possibly none); without a port list the single port or protocol default is
used.  FileZilla mode exits on a parse error.  Single-host mode requires
username and password and builds one server dictionary without a type key. -/
def mainConfig (args : Args) (env : FsEnv) : RunPlan :=
  if args.brute_force then
    match args.host with
    | none => .exited 1
    | some host =>
      let usernames :=
        match args.user_list with
        | some f => readWordlist env f
        | none =>
          match args.username with
          | some u => [u]
          | none => ["anonymous", "ftp", "admin", "root", "guest"]
      let passwords :=
        match args.pass_list with
        | some f => readWordlist env f
        | none =>
          match args.password with
          | some p => [p]
          | none => ["anonymous", "ftp", "admin", "root", "guest", "123456", "password", ""]
      let creds :=
        match args.combo_list with
        | some f => comboLists (readWordlist env f)
        | none => (usernames, passwords)
      let portsE : Except PyExc (List Nat) :=
        match args.port_list with
        | some s =>
          if env.isFile s then (readWordlist env s).mapM pyInt
          else
            .ok ((pySplit (Char.ofNat 44) s).filterMap fun p =>
              if pyTrim p ≠ "" ∧ (pyTrim p).data.all Char.isDigit then
                some (digitsToNat (pyTrim p))
              else none)
        | none => .ok [pyPortDefault args.port args.protocol]
      match portsE with
      | .error e => .crashed e
      | .ok ports => .bruteRun host creds.1 creds.2 ports
  else
    match args.filezilla_xml with
    | some _ =>
      match env.filezilla with
      | .error _ => .exited 1
      | .ok servers => .serversRun servers
    | none =>
      match args.host with
      | some host =>
        match args.username, args.password with
        | some u, some p =>
          .serversRun [{ host := host,
                         port := pyPortDefault args.port args.protocol,
                         username := u, password := p, protocol := args.protocol,
                         type := .missing }]
        | _, _ => .exited 1
      | none => .exited 1

/-! ## Report renderers (lines 444-608) -/

/-- The summary header block of a render: each field is present when the
renderer emits it. -/
structure ReportHeader where
  timestamp : Option String
  total : Option Nat
  successful : Option Nat
  failed : Option Nat
deriving DecidableEq, Repr

/-- The logical payload of one render: the summary header, the column-name
row (CSV only), and one block of rendered error descriptions per result. -/
structure Report where
  header : ReportHeader
  columnHeader : Option (List String)
  blocks : List (List String)
deriving DecidableEq, Repr

/-- One term of the summary generator expression: r['connection'] is read
and, only when truthy, r['authentication']; the running sum is increased
when both are truthy. -/
def successStep (n : Nat) (r : Rec) : Except PyExc Nat := do
  let c ← reqEntry "connection" r.connection
  if truthyB c then
    let a ← reqEntry "authentication" r.authentication
    pure (if truthyB a then n + 1 else n)
  else pure n

/-- sum(1 for r in results if r['connection'] and r['authentication']) —
the summary expression appearing verbatim at lines 464, 518, 572 and 573;
the lookups raise KeyError on records lacking the keys. -/
def successCountE (rs : List Rec) : Except PyExc Nat :=
  rs.foldlM successStep 0

/-- The same count as a pure function of well-formed records. -/
def successCountB (rs : List Rec) : Nat :=
  rs.countP fun r => truthyB (optOf r.connection) && truthyB (optOf r.authentication)

/-- One per-result block of _save_txt (lines 468-504): the result[...]
lookups in source order — username, host, port, connection,
connection_time, authentication, auth_time, path_exists (with path
subfields when not None), welcome_message, features, then errors; protocol
and total_time are read with dict.get and cannot raise.  The block's
rendered output is its list of error descriptions. -/
def txtBlock (r : Rec) : Except PyExc (List String) := do
  let _ ← reqEntry "username" r.username
  let _ ← reqEntry "host" r.host
  let _ ← reqEntry "port" r.port
  let _ ← reqEntry "connection" r.connection
  let _ ← reqEntry "connection_time" r.connection_time
  let _ ← reqEntry "authentication" r.authentication
  let _ ← reqEntry "auth_time" r.auth_time
  let pe ← reqEntry "path_exists" r.path_exists
  if pe.isSome then do
    let _ ← reqEntry "path_check_time" r.path_check_time
    let _ ← reqEntry "path_type" r.path_type
    pure ()
  else pure ()
  let _ ← reqEntry "welcome_message" r.welcome_message
  let _ ← reqEntry "features" r.features
  let _ ← reqEntry "errors" r.errors
  pure (errsOf r.errors)

/-- _save_txt (lines 458-511): the header lines carry the generation
timestamp, the total and the success/failure summary, then one block per
result follows; a KeyError from any lookup aborts the whole render before
anything is written. -/
def saveTxt (ts : String) (rs : List Rec) : Except PyExc Report := do
  let succ ← successCountE rs
  let blocks ← rs.mapM txtBlock
  pure { header := { timestamp := some ts, total := some rs.length,
                     successful := some succ, failed := some (rs.length - succ) },
         columnHeader := none, blocks := blocks }

/-- One per-result server element of _save_xml (lines 523-560), with the
result[...] lookups in source order. -/
def xmlBlock (r : Rec) : Except PyExc (List String) := do
  let _ ← reqEntry "host" r.host
  let _ ← reqEntry "port" r.port
  let _ ← reqEntry "username" r.username
  let _ ← reqEntry "timestamp" r.timestamp
  let _ ← reqEntry "connection" r.connection
  let _ ← reqEntry "connection_time" r.connection_time
  let _ ← reqEntry "authentication" r.authentication
  let _ ← reqEntry "auth_time" r.auth_time
  let pe ← reqEntry "path_exists" r.path_exists
  if pe.isSome then do
    let _ ← reqEntry "path_type" r.path_type
    let _ ← reqEntry "path_check_time" r.path_check_time
    pure ()
  else pure ()
  let _ ← reqEntry "welcome_message" r.welcome_message
  let _ ← reqEntry "features" r.features
  let _ ← reqEntry "errors" r.errors
  pure (errsOf r.errors)

/-- _save_xml (lines 513-566): a root element carrying the generation
timestamp, the total and the success/failure summary, then one server
element per result. -/
def saveXml (ts : String) (rs : List Rec) : Except PyExc Report := do
  let succ ← successCountE rs
  let blocks ← rs.mapM xmlBlock
  pure { header := { timestamp := some ts, total := some rs.length,
                     successful := some succ, failed := some (rs.length - succ) },
         columnHeader := none, blocks := blocks }

/-- _save_json (lines 568-579): the summary is computed twice (once for
successful_connections, once inside failed_connections); json.dump then
serializes the raw record dictionaries, so no per-record lookup can raise. -/
def saveJson (ts : String) (rs : List Rec) : Except PyExc Report := do
  let succ ← successCountE rs
  let succ2 ← successCountE rs
  pure { header := { timestamp := some ts, total := some rs.length,
                     successful := some succ, failed := some (rs.length - succ2) },
         columnHeader := none, blocks := rs.map fun r => errsOf r.errors }

/-- One row of _save_csv (lines 592-607): host, port, username, connection,
authentication and errors are read with plain lookups; everything else is
read with dict.get and cannot raise. -/
def csvRow (r : Rec) : Except PyExc (List String) := do
  let _ ← reqEntry "host" r.host
  let _ ← reqEntry "port" r.port
  let _ ← reqEntry "username" r.username
  let _ ← reqEntry "connection" r.connection
  let _ ← reqEntry "authentication" r.authentication
  let _ ← reqEntry "errors" r.errors
  pure (errsOf r.errors)

/-- _save_csv (lines 581-608): a column-name header row only — no
generation timestamp and no summary counts anywhere in the output — then
one row per result. -/
def saveCsv (ts : String) (rs : List Rec) : Except PyExc Report := do
  let blocks ← rs.mapM csvRow
  pure { header := { timestamp := none, total := none, successful := none,
                     failed := none },
         columnHeader := some ["Host", "Port", "Username", "Protocol",
           "Connection", "Connection Time (ms)", "Authentication",
           "Auth Time (ms)", "Path Exists", "Path Type",
           "Path Check Time (ms)", "Total Time (ms)", "Errors"],
         blocks := blocks }

/-! ## Derived shape predicates -/

/-- The eight keys a checker-produced record always carries beyond the
synthetic record's keys, except total_time (recorded separately at the end
of check). -/
def pres7 (r : Rec) : Bool :=
  present r.connection_time && present r.auth_time && present r.path_exists &&
  present r.path_type && present r.path_check_time &&
  present r.welcome_message && present r.features

/-- A record carrying every key of the full checker dictionary shape. -/
def fullShape (r : Rec) : Bool :=
  present r.host && present r.port && present r.username &&
  present r.protocol && present r.timestamp && present r.connection &&
  present r.connection_time && present r.authentication &&
  present r.auth_time && present r.path_exists && present r.path_type &&
  present r.path_check_time && present r.welcome_message &&
  present r.features && present r.errors && present r.total_time

/-- The per-record success test underlying successCountB. -/
def isSuccess (r : Rec) : Bool :=
  truthyB (optOf r.connection) && truthyB (optOf r.authentication)

/-- The three command-line configurations that main rejects before any
scheduling: missing host in brute-force mode, no mode selected, and missing
credentials in single-host mode (lines 663-667, 722-725, 738-740). -/
def configError (args : Args) : Bool :=
  (args.brute_force && args.host.isNone) ||
  (!args.brute_force && args.filezilla_xml.isNone && args.host.isNone) ||
  (!args.brute_force && args.filezilla_xml.isNone && args.host.isSome &&
    (args.username.isNone || args.password.isNone))

/-- The logical payload the text, XML and JSON renders produce on a list of
well-formed records: the summary header over the shared success count, and
one rendered error list per record. -/
def stdReport (ts : String) (rs : List Rec) : Report :=
  { header := { timestamp := some ts, total := some rs.length,
                successful := some (successCountB rs),
                failed := some (rs.length - successCountB rs) },
    columnHeader := none, blocks := rs.map fun r => errsOf r.errors }

/-- The logical payload the CSV render produces: a column-name row, no
summary header at all, and one rendered error list per record. -/
def csvReport (rs : List Rec) : Report :=
  { header := { timestamp := none, total := none, successful := none,
                failed := none },
    columnHeader := some ["Host", "Port", "Username", "Protocol",
      "Connection", "Connection Time (ms)", "Authentication",
      "Auth Time (ms)", "Path Exists", "Path Type", "Path Check Time (ms)",
      "Total Time (ms)", "Errors"],
    blocks := rs.map fun r => errsOf r.errors }

/-! ## Concrete instances used in the closed theorems -/

/-- An ftplib environment in which the connect call is refused and every
other call would succeed. -/
def envConnRefused : FtpEnv :=
  { connect := .error (.osError "Connection refused"), connectMs := 0,
    getwelcome := .ok "", login := .ok (), authMs := 0,
    voidcmdFeat := .ok (), sendFeat1 := .ok "", sendFeat2 := .ok "",
    cwdPath := .ok (), cwdParent := .ok (), nlst := .ok [],
    pathMs := 0, totalMs := 4 }

/-- An ftplib environment in which connect and login succeed and the server
has no FEAT support (the capability probe is rejected with error_perm). -/
def envAllOk : FtpEnv :=
  { connect := .ok (), connectMs := 12, getwelcome := .ok "220 ready",
    login := .ok (), authMs := 8,
    voidcmdFeat := .error (.errorPerm "500 Unknown command"),
    sendFeat1 := .ok "", sendFeat2 := .ok "",
    cwdPath := .ok (), cwdParent := .ok (), nlst := .ok [],
    pathMs := 0, totalMs := 25 }

/-- A paramiko environment in which the combined connect-and-authenticate
call raises AuthenticationException. -/
def envSftpAuthFail : SftpEnv :=
  { connect := .error .authExc, connectMs := 0, openSftp := .ok (),
    statMode := .ok none, pathMs := 0, totalMs := 9 }

/-- The record an all-ok FTP probe of 192.0.2.5 produces. -/
def recAllOk : Rec :=
  { host := .val "192.0.2.5", port := .val 21, username := .val "u",
    protocol := .val "FTP", timestamp := .val "t0",
    connection := .val true, connection_time := .val 12,
    authentication := .val true, auth_time := .val 8,
    path_exists := .pyNone, path_type := .pyNone, path_check_time := .pyNone,
    welcome_message := .val "220 ready", features := .val [],
    errors := .val [], total_time := .val 25 }

/-- The record one connection-refused FTP probe of 192.0.2.2 produces. -/
def recConnRefused : Rec :=
  { initFtpRec "192.0.2.2" "admin" 21 "t0" with
    errors := .val ["FTP error: Connection refused"], total_time := .val 4 }

/-- The same instance probed a second time: the shared dictionary now holds
the error twice. -/
def recConnRefused2 : Rec :=
  { initFtpRec "192.0.2.2" "admin" 21 "t0" with
    errors := .val ["FTP error: Connection refused",
                    "FTP error: Connection refused"],
    total_time := .val 4 }

/-- The record a connection-refused FTP probe of the single-host-mode
server produces. -/
def recSingleRefused : Rec :=
  { initFtpRec "192.0.2.7" "admin" 21 "t0" with
    errors := .val ["FTP error: Connection refused"], total_time := .val 4 }

/-- The server dictionary built by single-host mode (lines 727-733): no
type key. -/
def singleModeServer : Server :=
  { host := "192.0.2.7", port := 21, username := "admin",
    password := "admin", protocol := 0, type := .missing }

/-- Brute-force arguments whose port list is the non-numeric string ZAN. -/
def argsPortsZan : Args :=
  { filezilla_xml := none, host := some "198.51.100.9", brute_force := true,
    port := none, username := some "u1", password := some "p1", protocol := 0,
    user_list := none, pass_list := none, combo_list := none,
    port_list := some "ZAN" }

/-- Brute-force arguments with no host. -/
def argsNoHost : Args :=
  { filezilla_xml := none, host := none, brute_force := true,
    port := none, username := none, password := none, protocol := 0,
    user_list := none, pass_list := none, combo_list := none,
    port_list := none }

/-- A filesystem with no readable files. -/
def fsEmpty : FsEnv :=
  { files := fun _ => none, isFile := fun _ => false, filezilla := .ok [] }

/-! ## Helper lemmas -/

@[simp] lemma present_val {α : Type} (a : α) : present (Entry.val a) = true := rfl

@[simp] lemma present_pyNone {α : Type} : present (Entry.pyNone : Entry α) = true := rfl

@[simp] lemma present_missing {α : Type} : present (Entry.missing : Entry α) = false := rfl


lemma errsOf_appendError (r : Rec) (m : String) :
    errsOf (appendError r m).errors = errsOf r.errors ++ [m] := rfl

lemma appendError_ne_nil (r : Rec) (m : String) :
    errsOf (appendError r m).errors ≠ [] := by
  simp [errsOf_appendError]

lemma stWelcome_spec (r : Rec) (env : FtpEnv) :
    (stWelcome r env).connection = r.connection ∧
    (stWelcome r env).authentication = r.authentication ∧
    (stWelcome r env).errors = r.errors ∧
    (pres7 r = true → pres7 (stWelcome r env) = true) := by
  unfold stWelcome
  rcases env.getwelcome with e | w <;> simp_all [pres7]

lemma stFeat_spec (r : Rec) (env : FtpEnv) :
    (stFeat r env).1.connection = r.connection ∧
    (stFeat r env).1.authentication = r.authentication ∧
    (stFeat r env).1.errors = r.errors ∧
    (pres7 r = true → pres7 (stFeat r env).1 = true) := by
  unfold stFeat
  rcases env.voidcmdFeat with e | u
  · by_cases hp : isErrorPerm e <;> simp [hp]
  · rcases env.sendFeat1 with e1 | u1
    · simp
    · rcases env.sendFeat2 with e2 | resp
      · simp
      · by_cases hpre : pyStartsWith "211-" resp <;> simp_all [hpre, pres7]

lemma stPath_spec (r : Rec) (path : String) (env : FtpEnv) :
    (stPath r path env).connection = r.connection ∧
    (stPath r path env).authentication = r.authentication ∧
    (pres7 r = true → pres7 (stPath r path env) = true) := by
  unfold stPath
  rcases env.cwdPath with e | u
  · by_cases hp : isErrorPerm e
    · rcases env.cwdParent with e2 | u2
      · by_cases hp2 : isErrorPerm e2 <;> simp_all [appendError, pres7]
      · rcases env.nlst with e3 | files
        · by_cases hp3 : isErrorPerm e3 <;> simp_all [appendError, pres7]
        · by_cases hmem : fileOf path ∈ files <;> simp_all [appendError, pres7]
    · simp_all [appendError, pres7]
  · simp_all [pres7]


lemma ftpAfterConnect_spec (r0 : Rec) (env : FtpEnv) :
    (ftpAfterConnect r0 env).connection = .val true ∧
    (ftpAfterConnect r0 env).authentication = r0.authentication ∧
    (ftpAfterConnect r0 env).errors = r0.errors ∧
    (pres7 r0 = true → pres7 (ftpAfterConnect r0 env) = true) := by
  unfold ftpAfterConnect
  obtain ⟨h1, h2, h3, h4⟩ :=
    stWelcome_spec { r0 with connection_time := Entry.val env.connectMs,
                             connection := Entry.val true } env
  refine ⟨by simp [h1], by simp [h2], by simp [h3], ?_⟩
  intro h
  apply h4
  simp_all [pres7]

lemma ftpAfterLogin_spec (r0 : Rec) (env : FtpEnv) :
    (ftpAfterLogin r0 env).connection = .val true ∧
    (ftpAfterLogin r0 env).authentication = .val true ∧
    (pres7 r0 = true → pres7 (ftpAfterLogin r0 env) = true) := by
  unfold ftpAfterLogin
  obtain ⟨h1, h2, h3, h4⟩ := ftpAfterConnect_spec r0 env
  refine ⟨by simp [h1], by simp, ?_⟩
  intro h
  have := h4 h
  simp_all [pres7]

/-- How the body of FTPChecker.check can end, starting from any current
dictionary: the connect call fails and the dictionary is untouched; the
login call fails after the connection flag was set; or the FEAT probe
escapes, or nothing escapes, in both cases after both flags were set.  The
seven always-present checker keys are preserved throughout. -/
lemma ftpBody_cases (r0 : Rec) (cp : Option String) (env : FtpEnv) :
    (∃ e, ftpBody r0 cp env = (r0, some e)) ∨
    (∃ r e, ftpBody r0 cp env = (r, some e) ∧ r.connection = .val true ∧
      r.authentication = r0.authentication ∧ r.errors = r0.errors ∧
      (pres7 r0 = true → pres7 r = true)) ∨
    (∃ r oe, ftpBody r0 cp env = (r, oe) ∧ r.connection = .val true ∧
      r.authentication = .val true ∧ (pres7 r0 = true → pres7 r = true)) := by
  unfold ftpBody
  rcases hc : env.connect with e | u
  · exact Or.inl ⟨e, rfl⟩
  · rcases hl : env.login with e | u2
    · obtain ⟨h1, h2, h3, h4⟩ := ftpAfterConnect_spec r0 env
      exact Or.inr (Or.inl ⟨ftpAfterConnect r0 env, e, rfl, h1, h2, h3, h4⟩)
    · obtain ⟨g1, g2, g3⟩ := ftpAfterLogin_spec r0 env
      obtain ⟨f1, f2, f3, f4⟩ := stFeat_spec (ftpAfterLogin r0 env) env
      rcases hfe : stFeat (ftpAfterLogin r0 env) env with ⟨r3, oe3⟩
      rw [hfe] at f1 f2 f3 f4
      have hr3c : r3.connection = Entry.val true := by rw [f1, g1]
      have hr3a : r3.authentication = Entry.val true := by rw [f2, g2]
      have hr3p : pres7 r0 = true → pres7 r3 = true := fun h => f4 (g3 h)
      rcases oe3 with _ | e3
      · rcases cp with _ | path
        · exact Or.inr (Or.inr ⟨r3, none, rfl, hr3c, hr3a, hr3p⟩)
        · by_cases hpath : path ≠ ""
          · obtain ⟨p1, p2, p3⟩ := stPath_spec r3 path env
            refine Or.inr (Or.inr ⟨stPath r3 path env, none, by simp [hpath], ?_, ?_, ?_⟩)
            · rw [p1, hr3c]
            · rw [p2, hr3a]
            · exact fun h => p3 (hr3p h)
          · exact Or.inr (Or.inr ⟨r3, none, by simp [hpath], hr3c, hr3a, hr3p⟩)
      · exact Or.inr (Or.inr ⟨r3, some e3, rfl, hr3c, hr3a, hr3p⟩)

lemma ftpCheckFromE_none (r0 : Rec) (cp : Option String) (env : FtpEnv) (r : Rec)
    (h : ftpBody r0 cp env = (r, none)) :
    ftpCheckFromE r0 cp env = .ok { r with total_time := .val env.totalMs } := by
  unfold ftpCheckFromE
  rw [h]

lemma ftpCheckFromE_some (r0 : Rec) (cp : Option String) (env : FtpEnv)
    (r r2 : Rec) (e : PyExc)
    (h : ftpBody r0 cp env = (r, some e)) (h2 : ftpHandlers r e = .ok r2) :
    ftpCheckFromE r0 cp env = .ok { r2 with total_time := .val env.totalMs } := by
  unfold ftpCheckFromE
  simp only [h, h2]

/-- The FTP except clauses always convert the escaping exception into an
appended error description (the final clause catches class Exception and
every modelled exception is one). -/
lemma ftpHandlers_ok (r : Rec) (e : PyExc) :
    ∃ m, ftpHandlers r e = .ok (appendError r m) := by
  unfold ftpHandlers
  by_cases h1 : isFtplibAll e
  · exact ⟨"FTP error: " ++ excStr e, by simp [h1]⟩
  · have h2 : e ≠ .osTimeout := by rintro rfl; simp [isFtplibAll] at h1
    have h3 : e ≠ .osGaierror := by rintro rfl; simp [isFtplibAll] at h1
    exact ⟨"Unexpected error: " ++ excStr e, by simp [h1, h2, h3, isException]⟩

/-- The SFTP except clauses always convert the escaping exception into an
appended error description. -/
lemma sftpHandlers_ok (r : Rec) (e : PyExc) :
    ∃ m, sftpHandlers r e = .ok (appendError r m) := by
  unfold sftpHandlers
  by_cases h1 : isAuthExc e
  · exact ⟨"Authentication failed", by simp [h1]⟩
  · by_cases h2 : isSshExc e
    · exact ⟨"SSH error: " ++ excStr e, by simp [h1, h2]⟩
    · by_cases h3 : e = .osTimeout
      · exact ⟨"Connection timed out", by simp [h1, h2, h3, isAuthExc, isSshExc]⟩
      · by_cases h4 : e = .osGaierror
        · exact ⟨"Hostname resolution failed",
            by simp [h1, h2, h3, h4, isAuthExc, isSshExc]⟩
        · exact ⟨"Unexpected error: " ++ excStr e,
            by simp [h1, h2, h3, h4, isException]⟩

/-- Master description of a fresh FTPChecker.check call: it always returns
a record (never raises); the record is in one of three states — connect
failed (both flags false, an error captured), login failed (connected but
not authenticated, an error captured), or authenticated — and it always
carries the seven extra keys plus total_time. -/
lemma ftpCheckE_master (host username password : String) (port : Nat)
    (cp : Option String) (ts : String) (env : FtpEnv) :
    ∃ r, ftpCheckE host username password port cp ts env = .ok r ∧
      ((r.connection = .val false ∧ r.authentication = .val false ∧
          errsOf r.errors ≠ []) ∨
       (r.connection = .val true ∧ r.authentication = .val false ∧
          errsOf r.errors ≠ []) ∨
       (r.connection = .val true ∧ r.authentication = .val true)) ∧
      pres7 r = true ∧ present r.total_time = true := by
  unfold ftpCheckE
  have hpres0 : pres7 (initFtpRec host username port ts) = true := by
    simp [pres7, initFtpRec]
  rcases ftpBody_cases (initFtpRec host username port ts) cp env with
    ⟨e, heq⟩ | ⟨r, e, heq, hc, ha, herr, hp⟩ | ⟨r, oe, heq, hc, ha, hp⟩
  · obtain ⟨m, hm⟩ := ftpHandlers_ok (initFtpRec host username port ts) e
    rw [ftpCheckFromE_some _ _ _ _ _ _ heq hm]
    refine ⟨_, rfl, Or.inl ⟨?_, ?_, ?_⟩, ?_, ?_⟩
    · simp [appendError, initFtpRec]
    · simp [appendError, initFtpRec]
    · simp [appendError, errsOf]
    · simp_all [pres7, appendError]
    · simp
  · obtain ⟨m, hm⟩ := ftpHandlers_ok r e
    rw [ftpCheckFromE_some _ _ _ _ _ _ heq hm]
    refine ⟨_, rfl, Or.inr (Or.inl ⟨?_, ?_, ?_⟩), ?_, ?_⟩
    · simp [appendError, hc]
    · simp [appendError, ha, initFtpRec]
    · simp [appendError, errsOf]
    · simp_all [pres7, appendError]
    · simp
  · rcases oe with _ | e
    · rw [ftpCheckFromE_none _ _ _ _ heq]
      refine ⟨_, rfl, Or.inr (Or.inr ⟨?_, ?_⟩), ?_, ?_⟩
      · simp [hc]
      · simp [ha]
      · simp_all [pres7]
      · simp
    · obtain ⟨m, hm⟩ := ftpHandlers_ok r e
      rw [ftpCheckFromE_some _ _ _ _ _ _ heq hm]
      refine ⟨_, rfl, Or.inr (Or.inr ⟨?_, ?_⟩), ?_, ?_⟩
      · simp [appendError, hc]
      · simp [appendError, ha]
      · simp_all [pres7, appendError]
      · simp

lemma sftpPath_spec (r : Rec) (path : String) (env : SftpEnv) :
    (sftpPath r path env).connection = r.connection ∧
    (sftpPath r path env).authentication = r.authentication ∧
    (pres7 r = true → pres7 (sftpPath r path env) = true) := by
  unfold sftpPath
  rcases env.openSftp with e | u
  · simp_all [appendError, pres7]
  · rcases env.statMode with e | mode
    · by_cases hio : isIOError e <;> simp_all [appendError, pres7]
    · rcases mode with _ | m <;> simp_all [pres7]

lemma sftpFinal_spec (r : Rec) (env : SftpEnv) :
    (sftpFinal r env).connection = r.connection ∧
    (sftpFinal r env).authentication = r.authentication ∧
    (sftpFinal r env).errors = r.errors ∧
    (pres7 r = true → pres7 (sftpFinal r env) = true) ∧
    present (sftpFinal r env).total_time = true := by
  unfold sftpFinal
  refine ⟨rfl, rfl, rfl, ?_, by simp⟩
  intro h
  simp_all [pres7]

/-- How the body of SFTPChecker.check can end: the combined
connect-and-authenticate call fails and the dictionary is untouched, or it
succeeds and both flags are set (the path check never escapes). -/
lemma sftpBody_cases (r0 : Rec) (cp : Option String) (env : SftpEnv) :
    (∃ e, sftpBody r0 cp env = (r0, some e)) ∨
    (∃ r, sftpBody r0 cp env = (r, none) ∧ r.connection = .val true ∧
      r.authentication = .val true ∧ (pres7 r0 = true → pres7 r = true)) := by
  have hac : (sftpAfterConnect r0 env).connection = Entry.val true ∧
      (sftpAfterConnect r0 env).authentication = Entry.val true ∧
      (pres7 r0 = true → pres7 (sftpAfterConnect r0 env) = true) := by
    refine ⟨rfl, rfl, ?_⟩
    intro h
    simp_all [pres7, sftpAfterConnect]
  obtain ⟨ha1, ha2, ha3⟩ := hac
  unfold sftpBody
  rcases hc : env.connect with e | u
  · exact Or.inl ⟨e, rfl⟩
  · rcases cp with _ | path
    · exact Or.inr ⟨sftpAfterConnect r0 env, rfl, ha1, ha2, ha3⟩
    · by_cases hpath : path ≠ ""
      · obtain ⟨p1, p2, p3⟩ := sftpPath_spec (sftpAfterConnect r0 env) path env
        refine Or.inr ⟨sftpPath (sftpAfterConnect r0 env) path env,
          by simp [hpath], ?_, ?_, ?_⟩
        · rw [p1, ha1]
        · rw [p2, ha2]
        · exact fun h => p3 (ha3 h)
      · exact Or.inr ⟨sftpAfterConnect r0 env, by simp [hpath], ha1, ha2, ha3⟩

lemma sftpCheckFromE_none (r0 : Rec) (cp : Option String) (env : SftpEnv) (r : Rec)
    (h : sftpBody r0 cp env = (r, none)) :
    sftpCheckFromE r0 cp env = .ok (sftpFinal r env) := by
  unfold sftpCheckFromE
  rw [h]

lemma sftpCheckFromE_some (r0 : Rec) (cp : Option String) (env : SftpEnv)
    (r r2 : Rec) (e : PyExc)
    (h : sftpBody r0 cp env = (r, some e)) (h2 : sftpHandlers r e = .ok r2) :
    sftpCheckFromE r0 cp env = .ok (sftpFinal r2 env) := by
  unfold sftpCheckFromE
  simp only [h, h2]

/-- Master description of a fresh SFTPChecker.check call: it always returns
a record; either the combined connect-and-authenticate call failed (both
flags false, an error captured) or both flags are true; the record always
carries the seven extra keys plus total_time. -/
lemma sftpCheckE_master (host username password : String) (port : Nat)
    (cp : Option String) (ts : String) (env : SftpEnv) :
    ∃ r, sftpCheckE host username password port cp ts env = .ok r ∧
      ((r.connection = .val false ∧ r.authentication = .val false ∧
          errsOf r.errors ≠ []) ∨
       (r.connection = .val true ∧ r.authentication = .val true)) ∧
      pres7 r = true ∧ present r.total_time = true := by
  unfold sftpCheckE
  have hpres0 : pres7 (initSftpRec host username port ts) = true := by
    simp [pres7, initSftpRec, initFtpRec]
  rcases sftpBody_cases (initSftpRec host username port ts) cp env with
    ⟨e, heq⟩ | ⟨r, heq, hc, ha, hp⟩
  · obtain ⟨m, hm⟩ := sftpHandlers_ok (initSftpRec host username port ts) e
    rw [sftpCheckFromE_some _ _ _ _ _ _ heq hm]
    obtain ⟨f1, f2, f3, f4, f5⟩ :=
      sftpFinal_spec (appendError (initSftpRec host username port ts) m) env
    refine ⟨_, rfl, Or.inl ⟨?_, ?_, ?_⟩, ?_, f5⟩
    · rw [f1]; simp [appendError, initSftpRec, initFtpRec]
    · rw [f2]; simp [appendError, initSftpRec, initFtpRec]
    · rw [f3]; simp [appendError, errsOf]
    · apply f4
      simp_all [pres7, appendError]
  · rw [sftpCheckFromE_none _ _ _ _ heq]
    obtain ⟨f1, f2, f3, f4, f5⟩ := sftpFinal_spec r env
    refine ⟨_, rfl, Or.inr ⟨?_, ?_⟩, ?_, f5⟩
    · rw [f1, hc]
    · rw [f2, ha]
    · exact f4 (hp hpres0)

lemma bruteStep_append (oracle : Combo → Except PyExc Rec) (ts : String)
    (acc : List Rec) (c : Combo) :
    ∃ t, bruteStep oracle ts acc c = acc ++ t := by
  unfold bruteStep
  cases ho : oracle c with
  | error e => exact ⟨_, rfl⟩
  | ok result =>
    cases hcon : result.connection with
    | missing =>
      exact ⟨[result, errorResult c.host c.port c.username c.protocol
        (.keyErr "connection") ts], by simp [hcon, reqEntry, List.append_assoc]⟩
    | pyNone => exact ⟨[result], by simp [hcon, reqEntry, truthyB]⟩
    | val b =>
      cases b with
      | false => exact ⟨[result], by simp [hcon, reqEntry, truthyB]⟩
      | true =>
        cases hauth : result.authentication with
        | missing =>
          exact ⟨[result, errorResult c.host c.port c.username c.protocol
            (.keyErr "authentication") ts],
            by simp [hcon, hauth, reqEntry, truthyB, List.append_assoc]⟩
        | pyNone => exact ⟨[result], by simp [hcon, hauth, reqEntry, truthyB]⟩
        | val b2 => exact ⟨[result], by simp [hcon, hauth, reqEntry, truthyB]⟩

lemma bruteLoop_append (oracle : Combo → Except PyExc Rec) (ts : String)
    (order : List Combo) (acc : List Rec) :
    ∃ t, bruteLoop oracle ts order acc = acc ++ t := by
  induction order generalizing acc with
  | nil => exact ⟨[], by simp [bruteLoop]⟩
  | cons c rest ih =>
    obtain ⟨t1, h1⟩ := bruteStep_append oracle ts acc c
    obtain ⟨t2, h2⟩ := ih (acc ++ t1)
    refine ⟨t1 ++ t2, ?_⟩
    show bruteLoop oracle ts rest (bruteStep oracle ts acc c) = _
    rw [h1, h2, List.append_assoc]

lemma serversGuard_append (ts : String) (acc : List Rec) (s : Server) (e : PyExc) :
    ∃ t, (serversGuard ts acc s e).1 = acc ++ t := by
  unfold serversGuard
  cases ht : reqEntry "type" s.type with
  | error e2 => exact ⟨_, rfl⟩
  | ok v => exact ⟨_, rfl⟩

lemma serversStep_append (oracle : Server → Except PyExc Rec) (ts : String)
    (acc : List Rec) (s : Server) :
    ∃ t, (serversStep oracle ts acc s).1 = acc ++ t := by
  unfold serversStep
  cases ho : oracle s with
  | error e => exact serversGuard_append ts acc s e
  | ok result =>
    cases hcond : serversCond result with
    | error e2 =>
      obtain ⟨t, ht⟩ := serversGuard_append ts (acc ++ [result]) s e2
      refine ⟨[result] ++ t, ?_⟩
      simp only [hcond]
      rw [ht, List.append_assoc]
    | ok b =>
      cases b with
      | true =>
        cases hpr : serversSuccessPrint s result with
        | error e3 =>
          obtain ⟨t, ht⟩ := serversGuard_append ts (acc ++ [result]) s e3
          refine ⟨[result] ++ t, ?_⟩
          simp only [hcond, hpr]
          rw [ht, List.append_assoc]
        | ok v =>
          refine ⟨[result], ?_⟩
          simp only [hcond, hpr]
      | false =>
        cases hpr : serversFailPrint s result with
        | error e3 =>
          obtain ⟨t, ht⟩ := serversGuard_append ts (acc ++ [result]) s e3
          refine ⟨[result] ++ t, ?_⟩
          simp only [hcond, hpr]
          rw [ht, List.append_assoc]
        | ok v =>
          refine ⟨[result], ?_⟩
          simp only [hcond, hpr]

lemma serversLoop_append (oracle : Server → Except PyExc Rec) (ts : String)
    (order : List Server) (acc : List Rec) :
    ∃ t, (serversLoop oracle ts order acc).1 = acc ++ t := by
  induction order generalizing acc with
  | nil => exact ⟨[], by simp [serversLoop]⟩
  | cons s rest ih =>
    obtain ⟨t1, h1⟩ := serversStep_append oracle ts acc s
    rcases hs : serversStep oracle ts acc s with ⟨acc2, oe⟩
    rw [hs] at h1
    rcases oe with _ | e
    · obtain ⟨t2, h2⟩ := ih acc2
      refine ⟨t1 ++ t2, ?_⟩
      simp only [serversLoop, hs]
      have h1' : acc2 = acc ++ t1 := h1
      rw [h2, h1', List.append_assoc]
    · exact ⟨t1, by simp only [serversLoop, hs]; exact h1⟩

lemma innerCombos_length (h : String) (pr port : Nat) (ul pl : List String) :
    (innerCombos h pr port ul pl).length = ul.length * pl.length := by
  induction ul with
  | nil => simp [innerCombos]
  | cons u us ih =>
    simp only [innerCombos, List.flatMap_cons, List.length_append,
      List.length_map, List.length_cons] at ih ⊢
    rw [ih]
    ring

lemma mkCombos_length (h : String) (pr : Nat) (ul pl : List String)
    (ports : List Nat) :
    (mkCombos h pr ul pl ports).length = ports.length * ul.length * pl.length := by
  induction ports with
  | nil => simp [mkCombos]
  | cons p ps ih =>
    simp only [mkCombos, List.flatMap_cons, List.length_append,
      List.length_cons] at ih ⊢
    rw [ih, innerCombos_length]
    ring

lemma mem_innerCombos (h : String) (pr port : Nat) (ul pl : List String)
    (c : Combo) :
    c ∈ innerCombos h pr port ul pl ↔
      c.host = h ∧ c.protocol = pr ∧ c.port = port ∧
      c.username ∈ ul ∧ c.password ∈ pl := by
  simp only [innerCombos, List.mem_flatMap, List.mem_map]
  constructor
  · rintro ⟨u, hu, p, hp, rfl⟩
    exact ⟨rfl, rfl, rfl, hu, hp⟩
  · rintro ⟨h1, h2, h3, h4, h5⟩
    refine ⟨c.username, h4, c.password, h5, ?_⟩
    cases c
    simp_all

lemma innerCombos_nodup (h : String) (pr port : Nat) (ul pl : List String)
    (hu : ul.Nodup) (hp : pl.Nodup) :
    (innerCombos h pr port ul pl).Nodup := by
  unfold innerCombos
  rw [List.nodup_flatMap]
  constructor
  · intro u _
    refine hp.map ?_
    intro a b hab
    exact congrArg Combo.password hab
  · refine hu.imp ?_
    intro a b hab
    rw [Function.onFun, List.disjoint_left]
    rintro c hc1 hc2
    simp only [List.mem_map] at hc1 hc2
    obtain ⟨p1, _, rfl⟩ := hc1
    obtain ⟨p2, _, heq⟩ := hc2
    exact hab (congrArg Combo.username heq).symm

lemma mkCombos_nodup (h : String) (pr : Nat) (ul pl : List String)
    (ports : List Nat) (hports : ports.Nodup) (hu : ul.Nodup) (hp : pl.Nodup) :
    (mkCombos h pr ul pl ports).Nodup := by
  unfold mkCombos
  rw [List.nodup_flatMap]
  refine ⟨fun port _ => innerCombos_nodup h pr port ul pl hu hp, ?_⟩
  refine hports.imp ?_
  intro a b hab
  rw [Function.onFun, List.disjoint_left]
  intro c hc1 hc2
  rw [mem_innerCombos] at hc1 hc2
  exact hab (hc1.2.2.1 ▸ hc2.2.2.1)

/-- Indexing into a flatMap whose blocks all have length m. -/
lemma flatMap_getElem_const {α β : Type} (l : List α) (f : α → List β) (m : Nat)
    (hm : ∀ a, (f a).length = m) (i r : Nat) (hr : r < m) :
    (l.flatMap f)[i * m + r]? = (l[i]?).bind fun a => (f a)[r]? := by
  induction l generalizing i with
  | nil => simp
  | cons a as ih =>
    cases i with
    | zero =>
      rw [List.flatMap_cons, List.getElem?_append_left (by rw [hm]; omega)]
      simp
    | succ i2 =>
      rw [List.flatMap_cons,
        List.getElem?_append_right (by rw [hm]; calc m ≤ i2 * m + m + r := by omega
                                                   _ = (i2 + 1) * m + r := by ring)]
      have harith : (i2 + 1) * m + r - (f a).length = i2 * m + r := by
        rw [hm]; ring_nf; omega
      rw [harith, ih i2]
      simp

/-- The descriptor at flat position i*(|U|*|P|) + j*|P| + k is the one built
from port i, username j and password k: ports vary outermost, then
usernames, then passwords. -/
lemma mkCombos_get (h : String) (pr : Nat) (ul pl : List String)
    (ports : List Nat) (i j k : Nat)
    (hi : i < ports.length) (hj : j < ul.length) (hk : k < pl.length)
    (hidx : i * (ul.length * pl.length) + (j * pl.length + k) <
      (mkCombos h pr ul pl ports).length) :
    (mkCombos h pr ul pl ports).get
        ⟨i * (ul.length * pl.length) + (j * pl.length + k), hidx⟩ =
      { host := h, port := ports.get ⟨i, hi⟩, username := ul.get ⟨j, hj⟩,
        password := pl.get ⟨k, hk⟩, protocol := pr } := by
  have hjk : j * pl.length + k < ul.length * pl.length := by
    calc j * pl.length + k < j * pl.length + pl.length := by omega
      _ = (j + 1) * pl.length := by ring
      _ ≤ ul.length * pl.length := Nat.mul_le_mul_right pl.length hj
  have hq : (mkCombos h pr ul pl ports)[i * (ul.length * pl.length) +
      (j * pl.length + k)]? =
      some { host := h, port := ports.get ⟨i, hi⟩, username := ul.get ⟨j, hj⟩,
             password := pl.get ⟨k, hk⟩, protocol := pr } := by
    unfold mkCombos
    rw [flatMap_getElem_const _ _ (ul.length * pl.length)
      (fun p => innerCombos_length h pr p ul pl) i (j * pl.length + k) hjk]
    rw [List.getElem?_eq_getElem hi]
    simp only [Option.some_bind]
    unfold innerCombos
    rw [flatMap_getElem_const _ _ pl.length (fun u => List.length_map pl _) j k hk]
    rw [List.getElem?_eq_getElem hj]
    simp only [Option.some_bind]
    rw [List.getElem?_map, List.getElem?_eq_getElem hk]
    simp [List.get_eq_getElem]
  obtain ⟨h2, heq⟩ := List.getElem?_eq_some_iff.mp hq
  rw [List.get_eq_getElem]
  exact heq

lemma reqEntry_present {α : Type} (k : String) (e : Entry α)
    (h : present e = true) : reqEntry k e = .ok (optOf e) := by
  cases e <;> simp_all [present, reqEntry, optOf]


lemma txtBlock_ok (r : Rec) (h : fullShape r = true) :
    txtBlock r = .ok (errsOf r.errors) := by
  simp only [fullShape, Bool.and_eq_true] at h
  obtain ⟨⟨⟨⟨⟨⟨⟨⟨⟨⟨⟨⟨⟨⟨⟨h1, h2⟩, h3⟩, h4⟩, h5⟩, h6⟩, h7⟩, h8⟩, h9⟩,
    h10⟩, h11⟩, h12⟩, h13⟩, h14⟩, h15⟩, h16⟩ := h
  unfold txtBlock
  rw [reqEntry_present _ _ h3, reqEntry_present _ _ h1,
    reqEntry_present _ _ h2, reqEntry_present _ _ h6,
    reqEntry_present _ _ h7, reqEntry_present _ _ h8,
    reqEntry_present _ _ h9, reqEntry_present _ _ h10,
    reqEntry_present _ _ h13, reqEntry_present _ _ h14,
    reqEntry_present _ _ h15]
  cases hpe : (optOf r.path_exists).isSome <;>
    simp [hpe, reqEntry_present _ _ h11, reqEntry_present _ _ h12,
      bind, Except.bind, pure, Except.pure]

lemma xmlBlock_ok (r : Rec) (h : fullShape r = true) :
    xmlBlock r = .ok (errsOf r.errors) := by
  simp only [fullShape, Bool.and_eq_true] at h
  obtain ⟨⟨⟨⟨⟨⟨⟨⟨⟨⟨⟨⟨⟨⟨⟨h1, h2⟩, h3⟩, h4⟩, h5⟩, h6⟩, h7⟩, h8⟩, h9⟩,
    h10⟩, h11⟩, h12⟩, h13⟩, h14⟩, h15⟩, h16⟩ := h
  unfold xmlBlock
  rw [reqEntry_present _ _ h1, reqEntry_present _ _ h2,
    reqEntry_present _ _ h3, reqEntry_present _ _ h5,
    reqEntry_present _ _ h6, reqEntry_present _ _ h7,
    reqEntry_present _ _ h8, reqEntry_present _ _ h9,
    reqEntry_present _ _ h10, reqEntry_present _ _ h13,
    reqEntry_present _ _ h14, reqEntry_present _ _ h15]
  cases hpe : (optOf r.path_exists).isSome <;>
    simp [hpe, reqEntry_present _ _ h11, reqEntry_present _ _ h12,
      bind, Except.bind, pure, Except.pure]

lemma csvRow_ok (r : Rec) (h1 : present r.host = true)
    (h2 : present r.port = true) (h3 : present r.username = true)
    (h4 : present r.connection = true) (h5 : present r.authentication = true)
    (h6 : present r.errors = true) :
    csvRow r = .ok (errsOf r.errors) := by
  unfold csvRow
  rw [reqEntry_present _ _ h1, reqEntry_present _ _ h2,
    reqEntry_present _ _ h3, reqEntry_present _ _ h4,
    reqEntry_present _ _ h5, reqEntry_present _ _ h6]
  simp [bind, Except.bind, pure, Except.pure]


lemma successStep_ok (n : Nat) (r : Rec) (hc : present r.connection = true)
    (ha : present r.authentication = true) :
    successStep n r = .ok (if isSuccess r then n + 1 else n) := by
  unfold successStep
  rw [reqEntry_present _ _ hc]
  cases htc : truthyB (optOf r.connection)
  · simp [htc, isSuccess, bind, Except.bind, pure, Except.pure]
  · rw [reqEntry_present _ _ ha]
    cases hta : truthyB (optOf r.authentication) <;>
      simp [htc, hta, isSuccess, bind, Except.bind, pure, Except.pure]

lemma successCountE_ok (rs : List Rec)
    (h : ∀ r ∈ rs, present r.connection = true ∧
      present r.authentication = true) :
    successCountE rs = .ok (successCountB rs) := by
  suffices key : ∀ (l : List Rec) (n : Nat),
      (∀ r ∈ l, present r.connection = true ∧ present r.authentication = true) →
      l.foldlM successStep n = .ok (n + successCountB l) by
    unfold successCountE
    simpa using key rs 0 h
  intro l
  induction l with
  | nil =>
    intro n h2
    simp [successCountB, pure, Except.pure]
  | cons r rest ih =>
    intro n h2
    obtain ⟨hc, ha⟩ := h2 r (List.mem_cons_self r rest)
    have hrest := fun r2 hr2 => h2 r2 (List.mem_cons_of_mem r hr2)
    rw [List.foldlM_cons, successStep_ok n r hc ha]
    have hbind : ∀ (x : Nat),
        (do
          let s ← (Except.ok x : Except PyExc Nat)
          rest.foldlM successStep s) = rest.foldlM successStep x := by
      intro x
      simp [bind, Except.bind]
    rw [hbind, ih _ hrest]
    unfold successCountB
    rw [List.countP_cons]
    cases hs : isSuccess r
    all_goals simp only [isSuccess] at hs
    · simp [hs]
    · simp [hs]
      omega

lemma fullShape_fields (r : Rec) (h : fullShape r = true) :
    present r.host = true ∧ present r.port = true ∧
    present r.username = true ∧ present r.protocol = true ∧
    present r.timestamp = true ∧ present r.connection = true ∧
    present r.connection_time = true ∧ present r.authentication = true ∧
    present r.auth_time = true ∧ present r.path_exists = true ∧
    present r.path_type = true ∧ present r.path_check_time = true ∧
    present r.welcome_message = true ∧ present r.features = true ∧
    present r.errors = true ∧ present r.total_time = true := by
  simp only [fullShape, Bool.and_eq_true] at h
  tauto

lemma mapM_blocks_ok (f : Rec → Except PyExc (List String)) (rs : List Rec)
    (h : ∀ r ∈ rs, f r = .ok (errsOf r.errors)) :
    rs.mapM f = .ok (rs.map fun r => errsOf r.errors) := by
  induction rs with
  | nil => rfl
  | cons r rest ih =>
    rw [List.mapM_cons, h r (List.mem_cons_self r rest),
      ih fun r2 hr2 => h r2 (List.mem_cons_of_mem r hr2)]
    simp [bind, Except.bind, pure, Except.pure]

/-! ## Claim theorems -/

/-- C1: the claim says every descriptor submitted to the scheduler yields
exactly one appended result and no descriptor's exception terminates the
batch.  At the failing input — the single-host-mode server dictionary,
which carries no type key, with a probe that completes normally — the
check_servers loop appends the checker record, then its progress print
raises KeyError on server['type']; the except guard converts that KeyError
into a second synthetic record for the same descriptor, and the guard's own
print raises KeyError('type') again, which escapes and terminates the
batch: two records for one descriptor and an uncaught exception. -/
theorem c1_check_servers_type_keyerror :
    (checkServers (fun sv => ftpCheckE sv.host sv.username sv.password
        sv.port none "t0" envConnRefused) "t0" [singleModeServer]
        (submittedServers [singleModeServer])).1 =
      [recSingleRefused,
       errorResult "192.0.2.7" 21 "admin" 0 (.keyErr "type") "t0"] ∧
    (checkServers (fun sv => ftpCheckE sv.host sv.username sv.password
        sv.port none "t0" envConnRefused) "t0" [singleModeServer]
        (submittedServers [singleModeServer])).2 = some (.keyErr "type") :=
  ⟨rfl, rfl⟩

/-- C4: the claim says a combo list contributes fixed (username, password)
pairs, cross-producted only against the port list, for |ports| × |combos|
attempts.  The code instead splits the combo file into two parallel lists
and hands them to the generic cross-product generator: the two-combo file
admin:1234 / root:toor with one port yields four attempts, among them the
mixed pair admin/toor that pairs one combo's username with the other
combo's password. -/
theorem c4_combo_list_pairs_crossed :
    (mkCombos "198.51.100.3" 0 (comboLists ["admin:1234", "root:toor"]).1
        (comboLists ["admin:1234", "root:toor"]).2 [21]).length = 4 ∧
    ({ host := "198.51.100.3", port := 21, username := "admin",
       password := "toor", protocol := 0 } : Combo) ∈
      mkCombos "198.51.100.3" 0 (comboLists ["admin:1234", "root:toor"]).1
        (comboLists ["admin:1234", "root:toor"]).2 [21] := by
  constructor
  · decide
  · decide

/-- C5 counterexample: the claim quantifies over every spec with
pairwise-distinct lists, so it also covers an empty port list, for which it
predicts 0 = |ports| × |usernames| × |passwords| generated attempts; the
code instead replaces a falsy port list by the protocol default [21] before
generation, announces 1 attempt and submits one descriptor at port 21. -/
theorem c5_empty_port_list_defaults :
    (bruteForce "192.0.2.1" 0 ["root"] ["toor"] []
        (fun _ => .error (.osError "x")) [] "t").announcedTotal = 1 ∧
    (bruteForce "192.0.2.1" 0 ["root"] ["toor"] []
        (fun _ => .error (.osError "x")) [] "t").submitted =
      [{ host := "192.0.2.1", port := 21, username := "root",
         password := "toor", protocol := 0 }] :=
  ⟨rfl, rfl⟩

/-- C5 (amended): for a nonempty, pairwise-distinct port list and
pairwise-distinct username and password lists, the generated sequence has
exactly |ports| × |usernames| × |passwords| descriptors with no duplicates,
ordered ports outermost, then usernames, then passwords (the descriptor at
flat index i*(|U|*|P|) + j*|P| + k is built from port i, username j,
password k), and the total announced before any probe runs equals the
generated count. -/
theorem c5_generator_counts_and_order (host : String) (proto : Nat)
    (ul pl : List String) (ports : List Nat)
    (oracle : Combo → Except PyExc Rec) (order : List Combo) (ts : String)
    (hne : ports ≠ []) (hports : ports.Nodup) (hu : ul.Nodup) (hp : pl.Nodup) :
    (mkCombos host proto ul pl ports).length =
      ports.length * ul.length * pl.length ∧
    (mkCombos host proto ul pl ports).Nodup ∧
    (∀ i j k (hi : i < ports.length) (hj : j < ul.length) (hk : k < pl.length)
      (hidx : i * (ul.length * pl.length) + (j * pl.length + k) <
        (mkCombos host proto ul pl ports).length),
      (mkCombos host proto ul pl ports).get
          ⟨i * (ul.length * pl.length) + (j * pl.length + k), hidx⟩ =
        { host := host, port := ports.get ⟨i, hi⟩,
          username := ul.get ⟨j, hj⟩, password := pl.get ⟨k, hk⟩,
          protocol := proto }) ∧
    (bruteForce host proto ul pl ports oracle order ts).announcedTotal =
      (mkCombos host proto ul pl ports).length ∧
    (bruteForce host proto ul pl ports oracle order ts).submitted =
      mkCombos host proto ul pl ports := by
  refine ⟨mkCombos_length host proto ul pl ports,
    mkCombos_nodup host proto ul pl ports hports hu hp,
    fun i j k hi hj hk hidx => mkCombos_get host proto ul pl ports i j k hi hj hk hidx,
    ?_, ?_⟩
  · simp only [bruteForce, if_neg hne]
    rw [mkCombos_length]
    ring
  · simp only [bruteForce, if_neg hne]

/-- Witness for C5: two ports, two usernames, one password; all four
hypotheses discharged, and the ordering conjunct instantiated at the last
generated descriptor (port index 1, username index 1, password index 0,
flat index 3). -/
theorem c5_generator_counts_and_order_witness :
    (mkCombos "h" 0 ["root", "admin"] ["a"] [21, 2121]).length = 4 ∧
    (mkCombos "h" 0 ["root", "admin"] ["a"] [21, 2121]).get ⟨3, by decide⟩ =
      { host := "h", port := 2121, username := "admin", password := "a",
        protocol := 0 } := by
  have hmain := c5_generator_counts_and_order "h" 0 ["root", "admin"] ["a"]
    [21, 2121] (fun _ => Except.error (.osError "x")) [] "t"
    (by decide) (by decide) (by decide) (by decide)
  refine ⟨by simpa using hmain.1, ?_⟩
  have hord := hmain.2.2.1 1 1 0 (by decide) (by decide) (by decide) (by decide)
  simpa using hord

/-- C7: the claim says rendering a report always succeeds on result lists
containing scheduler-synthesized failure records and that every per-probe
failure appears in the report's errors output.  At the failing input — a
result list holding one synthetic record — the text and XML renderers raise
KeyError('connection_time') (the synthetic record lacks that key and they
read it with a plain lookup), producing no report at all; only the JSON and
CSV renderers, which use dict.get for the optional fields, succeed and show
the failure. -/
theorem c7_txt_xml_crash_on_synthetic :
    saveTxt "t1" [errorResult "203.0.113.5" 21 "root" 0
        (.osError "connection reset") "t0"] =
      .error (.keyErr "connection_time") ∧
    saveXml "t1" [errorResult "203.0.113.5" 21 "root" 0
        (.osError "connection reset") "t0"] =
      .error (.keyErr "connection_time") ∧
    saveJson "t1" [errorResult "203.0.113.5" 21 "root" 0
        (.osError "connection reset") "t0"] =
      .ok { header := { timestamp := some "t1", total := some 1,
                        successful := some 0, failed := some 1 },
            columnHeader := none,
            blocks := [["Check failed: connection reset"]] } ∧
    (∃ rep, saveCsv "t1" [errorResult "203.0.113.5" 21 "root" 0
        (.osError "connection reset") "t0"] = .ok rep ∧
      rep.blocks = [["Check failed: connection reset"]]) :=
  ⟨rfl, rfl, rfl, ⟨_, rfl, rfl⟩⟩

/-- C2: for every behaviour of the underlying client library that fails by
raising an Exception, FTPChecker.check and SFTPChecker.check return a
result record rather than raising; a failed stage leaves its flag false and
captures an error description: a false connection flag comes with a false
authentication flag and a nonempty errors list, and a false authentication
flag comes with a nonempty errors list. -/
theorem c2_checkers_capture_failures
    (hF uF pF : String) (portF : Nat) (cpF : Option String) (tsF : String)
    (envF : FtpEnv) (hS uS pS : String) (portS : Nat) (cpS : Option String)
    (tsS : String) (envS : SftpEnv) :
    (∃ r, ftpCheckE hF uF pF portF cpF tsF envF = .ok r ∧
      (r.connection = .val false → r.authentication = .val false ∧
        errsOf r.errors ≠ []) ∧
      (r.authentication = .val false → errsOf r.errors ≠ [])) ∧
    (∃ r, sftpCheckE hS uS pS portS cpS tsS envS = .ok r ∧
      (r.connection = .val false → r.authentication = .val false ∧
        errsOf r.errors ≠ []) ∧
      (r.authentication = .val false → errsOf r.errors ≠ [])) := by
  constructor
  · obtain ⟨r, heq, hdisj, -, -⟩ := ftpCheckE_master hF uF pF portF cpF tsF envF
    refine ⟨r, heq, ?_, ?_⟩
    · intro hcf
      rcases hdisj with ⟨h1, h2, h3⟩ | ⟨h1, h2, h3⟩ | ⟨h1, h2⟩
      · exact ⟨h2, h3⟩
      · rw [h1] at hcf
        exact absurd hcf (by simp)
      · rw [h1] at hcf
        exact absurd hcf (by simp)
    · intro haf
      rcases hdisj with ⟨h1, h2, h3⟩ | ⟨h1, h2, h3⟩ | ⟨h1, h2⟩
      · exact h3
      · exact h3
      · rw [h2] at haf
        exact absurd haf (by simp)
  · obtain ⟨r, heq, hdisj, -, -⟩ := sftpCheckE_master hS uS pS portS cpS tsS envS
    refine ⟨r, heq, ?_, ?_⟩
    · intro hcf
      rcases hdisj with ⟨h1, h2, h3⟩ | ⟨h1, h2⟩
      · exact ⟨h2, h3⟩
      · rw [h1] at hcf
        exact absurd hcf (by simp)
    · intro haf
      rcases hdisj with ⟨h1, h2, h3⟩ | ⟨h1, h2⟩
      · exact h3
      · rw [h2] at haf
        exact absurd haf (by simp)

/-- Witness for C2 at a connection-refused FTP probe and an
authentication-failed SFTP probe: the FTP record comes back with its flags
false and the failure captured in errors. -/
theorem c2_checkers_capture_failures_witness :
    recConnRefused.connection = Entry.val false ∧
    recConnRefused.authentication = Entry.val false ∧
    errsOf recConnRefused.errors ≠ [] := by
  obtain ⟨⟨r, heq, himp1, himp2⟩, -⟩ := c2_checkers_capture_failures
    "192.0.2.2" "admin" "pw" 21 none "t0" envConnRefused
    "203.0.113.9" "u" "p" 22 none "t0" envSftpAuthFail
  have hr : r = recConnRefused := by
    have h3 : Except.ok r = (Except.ok recConnRefused : Except PyExc Rec) := by
      rw [← heq]
      rfl
    injection h3
  subst hr
  obtain ⟨ha, he⟩ := himp1 (by decide)
  exact ⟨by decide, ha, he⟩

/-- C3: in every record produced by a checker or synthesized by a
scheduler, a true authentication flag implies a true connection flag. -/
theorem c3_auth_implies_connection
    (hF uF pF : String) (portF : Nat) (cpF : Option String) (tsF : String)
    (envF : FtpEnv) (hS uS pS : String) (portS : Nat) (cpS : Option String)
    (tsS : String) (envS : SftpEnv)
    (hE : String) (portE : Nat) (uE : String) (pnE : Nat) (eE : PyExc)
    (tsE : String) :
    (∀ r, ftpCheckE hF uF pF portF cpF tsF envF = .ok r →
      r.authentication = .val true → r.connection = .val true) ∧
    (∀ r, sftpCheckE hS uS pS portS cpS tsS envS = .ok r →
      r.authentication = .val true → r.connection = .val true) ∧
    ((errorResult hE portE uE pnE eE tsE).authentication = .val true →
      (errorResult hE portE uE pnE eE tsE).connection = .val true) := by
  refine ⟨?_, ?_, ?_⟩
  · intro r hr hauth
    obtain ⟨r0, heq, hdisj, -, -⟩ := ftpCheckE_master hF uF pF portF cpF tsF envF
    rw [heq] at hr
    injection hr with hr0
    subst hr0
    rcases hdisj with ⟨h1, h2, -⟩ | ⟨h1, h2, -⟩ | ⟨h1, -⟩
    · rw [h2] at hauth
      exact absurd hauth (by simp)
    · rw [h2] at hauth
      exact absurd hauth (by simp)
    · exact h1
  · intro r hr hauth
    obtain ⟨r0, heq, hdisj, -, -⟩ := sftpCheckE_master hS uS pS portS cpS tsS envS
    rw [heq] at hr
    injection hr with hr0
    subst hr0
    rcases hdisj with ⟨h1, h2, -⟩ | ⟨h1, -⟩
    · rw [h2] at hauth
      exact absurd hauth (by simp)
    · exact h1
  · intro hauth
    exact absurd hauth (by simp [errorResult])

/-- Witness for C3 at an all-ok FTP probe: the returned record is
authenticated, and the theorem delivers its connection flag. -/
theorem c3_auth_implies_connection_witness :
    recAllOk.authentication = Entry.val true ∧
    recAllOk.connection = Entry.val true :=
  ⟨by decide, (c3_auth_implies_connection "192.0.2.5" "u" "p" 21 none "t0"
    envAllOk "203.0.113.9" "u" "p" 22 none "t0" envSftpAuthFail
    "h" 21 "u" 0 (.osError "x") "t0").1 recAllOk rfl (by decide)⟩

/-- C10: a scheduler-synthesized failure record carries exactly the keys
host, port, username, protocol, timestamp, connection, authentication and
errors, and omits connection_time, auth_time, path_exists, path_type,
path_check_time, welcome_message, features and total_time; a record
returned by a completing checker always carries those omitted keys, so the
two shapes differ. -/
theorem c10_synthetic_record_shape
    (hA : String) (portA : Nat) (uA : String) (pnA : Nat) (eA : PyExc)
    (tsA : String)
    (hF uF pF : String) (portF : Nat) (cpF : Option String) (tsF : String)
    (envF : FtpEnv) (hS uS pS : String) (portS : Nat) (cpS : Option String)
    (tsS : String) (envS : SftpEnv) :
    (present (errorResult hA portA uA pnA eA tsA).host = true ∧
     present (errorResult hA portA uA pnA eA tsA).port = true ∧
     present (errorResult hA portA uA pnA eA tsA).username = true ∧
     present (errorResult hA portA uA pnA eA tsA).protocol = true ∧
     present (errorResult hA portA uA pnA eA tsA).timestamp = true ∧
     present (errorResult hA portA uA pnA eA tsA).connection = true ∧
     present (errorResult hA portA uA pnA eA tsA).authentication = true ∧
     present (errorResult hA portA uA pnA eA tsA).errors = true) ∧
    (present (errorResult hA portA uA pnA eA tsA).connection_time = false ∧
     present (errorResult hA portA uA pnA eA tsA).auth_time = false ∧
     present (errorResult hA portA uA pnA eA tsA).path_exists = false ∧
     present (errorResult hA portA uA pnA eA tsA).path_type = false ∧
     present (errorResult hA portA uA pnA eA tsA).path_check_time = false ∧
     present (errorResult hA portA uA pnA eA tsA).welcome_message = false ∧
     present (errorResult hA portA uA pnA eA tsA).features = false ∧
     present (errorResult hA portA uA pnA eA tsA).total_time = false) ∧
    (∀ r, ftpCheckE hF uF pF portF cpF tsF envF = .ok r →
      pres7 r = true ∧ present r.total_time = true) ∧
    (∀ r, sftpCheckE hS uS pS portS cpS tsS envS = .ok r →
      pres7 r = true ∧ present r.total_time = true) := by
  refine ⟨⟨rfl, rfl, rfl, rfl, rfl, rfl, rfl, rfl⟩,
    ⟨rfl, rfl, rfl, rfl, rfl, rfl, rfl, rfl⟩, ?_, ?_⟩
  · intro r hr
    obtain ⟨r0, heq, -, hp7, htot⟩ := ftpCheckE_master hF uF pF portF cpF tsF envF
    rw [heq] at hr
    injection hr with hr0
    subst hr0
    exact ⟨hp7, htot⟩
  · intro r hr
    obtain ⟨r0, heq, -, hp7, htot⟩ := sftpCheckE_master hS uS pS portS cpS tsS envS
    rw [heq] at hr
    injection hr with hr0
    subst hr0
    exact ⟨hp7, htot⟩

/-- Witness for C10: the checker-shape conjunct discharged at a concrete
connection-refused probe. -/
theorem c10_synthetic_record_shape_witness :
    pres7 recConnRefused = true ∧ present recConnRefused.total_time = true :=
  (c10_synthetic_record_shape "h" 21 "u" 0 (.osError "x") "t0"
    "192.0.2.2" "admin" "pw" 21 none "t0" envConnRefused
    "203.0.113.9" "u" "p" 22 none "t0" envSftpAuthFail).2.2.1 recConnRefused rfl

/-- C9 counterexample: the claim says the record returned by check() is
frozen even when check() is called again on the same instance.  check()
returns self.results itself and never re-initialises it, so calling check()
a second time on one instance mutates the record the first call returned:
after the second connection-refused probe, the record handed out by the
first call holds the error twice (its value as an object is recConnRefused2,
no longer the recConnRefused the caller received). -/
theorem c9_second_check_mutates_returned_record :
    ftpCheckFromE (initFtpRec "192.0.2.2" "admin" 21 "t0") none
      envConnRefused = .ok recConnRefused ∧
    ftpCheckFromE recConnRefused none envConnRefused = .ok recConnRefused2 ∧
    recConnRefused2 ≠ recConnRefused ∧
    errsOf recConnRefused.errors = ["FTP error: Connection refused"] ∧
    errsOf recConnRefused2.errors =
      ["FTP error: Connection refused", "FTP error: Connection refused"] :=
  ⟨rfl, rfl, by decide, rfl, rfl⟩

/-- C9 (amended): a record is unchanged once collected, provided check() is
not invoked again on its instance — which the program guarantees: both
schedulers construct a fresh checker per descriptor and their collection
loops only append, so every record already in the results list is unchanged
by all later scheduling steps. -/
theorem c9_schedulers_only_append (oracle : Combo → Except PyExc Rec)
    (oracleS : Server → Except PyExc Rec) (ts tsS : String)
    (order : List Combo) (orderS : List Server) (acc accS : List Rec) :
    (bruteLoop oracle ts order acc).take acc.length = acc ∧
    ((serversLoop oracleS tsS orderS accS).1).take accS.length = accS := by
  constructor
  · obtain ⟨t, ht⟩ := bruteLoop_append oracle ts order acc
    rw [ht, List.take_left]
  · obtain ⟨t, ht⟩ := serversLoop_append oracleS tsS orderS accS
    rw [ht, List.take_left]

/-- C6 counterexample: the claim says every render kind produces a header
block with the generation timestamp, total, success and failure counts.
The CSV render emits only a column-name row: its header has none of the
four summary fields, already on the empty result list. -/
theorem c6_csv_has_no_summary_header :
    ∃ rep, saveCsv "t9" [] = .ok rep ∧ rep.header.timestamp = none ∧
      rep.header.total = none ∧ rep.header.successful = none ∧
      rep.header.failed = none :=
  ⟨_, rfl, rfl, rfl, rfl, rfl⟩

/-- C6 (amended): on result lists of full checker-shaped records, the text,
XML and JSON renders each produce the header block with the generation
timestamp, the total and the success and failure counts, all three
computing the same statistics (the shared count of records whose connection
and authentication are both truthy); the CSV render produces only a
column-name row and no summary block. -/
theorem c6_render_summary_headers (ts : String) (rs : List Rec)
    (h : ∀ r ∈ rs, fullShape r = true) :
    saveTxt ts rs = .ok (stdReport ts rs) ∧
    saveXml ts rs = .ok (stdReport ts rs) ∧
    saveJson ts rs = .ok (stdReport ts rs) ∧
    saveCsv ts rs = .ok (csvReport rs) := by
  have hca : ∀ r ∈ rs, present r.connection = true ∧
      present r.authentication = true := by
    intro r hr
    obtain ⟨-, -, -, -, -, h6, -, h8, -⟩ := fullShape_fields r (h r hr)
    exact ⟨h6, h8⟩
  have hcount := successCountE_ok rs hca
  have htxt := mapM_blocks_ok txtBlock rs fun r hr => txtBlock_ok r (h r hr)
  have hxml := mapM_blocks_ok xmlBlock rs fun r hr => xmlBlock_ok r (h r hr)
  have hcsv := mapM_blocks_ok csvRow rs fun r hr => by
    obtain ⟨h1, h2, h3, -, -, h6, -, h8, -, -, -, -, -, -, h15, -⟩ :=
      fullShape_fields r (h r hr)
    exact csvRow_ok r h1 h2 h3 h6 h8 h15
  refine ⟨?_, ?_, ?_, ?_⟩
  · unfold saveTxt stdReport
    rw [hcount, htxt]
    simp [bind, Except.bind, pure, Except.pure]
  · unfold saveXml stdReport
    rw [hcount, hxml]
    simp [bind, Except.bind, pure, Except.pure]
  · unfold saveJson stdReport
    rw [hcount]
    simp [bind, Except.bind, pure, Except.pure]
  · unfold saveCsv csvReport
    rw [hcsv]
    simp [bind, Except.bind, pure, Except.pure]

/-- Witness for C6 on a one-record list of full checker shape: the text
render produces the summary header with one success and no failures. -/
theorem c6_render_summary_headers_witness :
    fullShape recAllOk = true ∧
    saveTxt "t1" [recAllOk] = .ok (stdReport "t1" [recAllOk]) ∧
    (stdReport "t1" [recAllOk]).header.successful = some 1 ∧
    (stdReport "t1" [recAllOk]).header.failed = some 0 := by
  refine ⟨by decide, ?_, by decide, by decide⟩
  exact (c6_render_summary_headers "t1" [recAllOk] (by decide)).1

/-- C8 counterexample: the claim says a malformed port list is detected
before scheduling and terminates the run with a non-zero exit.  With the
non-numeric comma port list ZAN, main silently filters every entry away,
proceeds into the brute-force scheduler with an empty port list, and the
scheduler substitutes the protocol default and announces one attempt at
port 21 — the run proceeds instead of terminating. -/
theorem c8_malformed_port_list_proceeds :
    mainConfig argsPortsZan fsEmpty =
      .bruteRun "198.51.100.9" ["u1"] ["p1"] [] ∧
    (bruteForce "198.51.100.9" 0 ["u1"] ["p1"] []
        (fun _ => .error (.osError "x")) [] "t").announcedTotal = 1 := by
  constructor
  · decide
  · rfl

/-- C8 (amended): the configuration errors main does detect before any
scheduling — a missing host in brute-force mode, no mode selected, missing
credentials in single-host mode, and a FileZilla parse failure — terminate
the run with exit code 1; a malformed comma-separated port list is instead
silently reduced to its numeric entries and the run proceeds. -/
theorem c8_config_errors_exit (args : Args) (env : FsEnv)
    (h : configError args = true ∨
      (args.brute_force = false ∧ (∃ f, args.filezilla_xml = some f) ∧
        ∃ e, env.filezilla = .error e)) :
    mainConfig args env = .exited 1 := by
  rcases h with hc | ⟨hbf, ⟨f, hfz⟩, ⟨e, hfe⟩⟩
  · simp only [configError, Bool.or_eq_true, Bool.and_eq_true] at hc
    rcases hc with (⟨hb, hh⟩ | ⟨⟨hb, hfz⟩, hh⟩) | ⟨⟨⟨hb, hfz⟩, hh⟩, hcred⟩
    · rw [Option.isNone_iff_eq_none] at hh
      simp [mainConfig, hb, hh]
    · have hb2 : args.brute_force = false := by simpa using hb
      rw [Option.isNone_iff_eq_none] at hfz hh
      simp [mainConfig, hb2, hfz, hh]
    · have hb2 : args.brute_force = false := by simpa using hb
      rw [Option.isNone_iff_eq_none] at hfz
      obtain ⟨hst, hhs⟩ := Option.isSome_iff_exists.mp hh
      have hcred2 : args.username.isNone = true ∨ args.password.isNone = true := by
        simpa using hcred
      rcases hcred2 with hu | hpw
      · rw [Option.isNone_iff_eq_none] at hu
        simp [mainConfig, hb2, hfz, hhs, hu]
      · rw [Option.isNone_iff_eq_none] at hpw
        cases hu2 : args.username <;>
          simp [mainConfig, hb2, hfz, hhs, hpw, hu2]
  · simp [mainConfig, hbf, hfz, hfe]

/-- Witness for C8: brute-force mode without a host exits with code 1. -/
theorem c8_config_errors_exit_witness :
    mainConfig argsNoHost fsEmpty = RunPlan.exited 1 :=
  c8_config_errors_exit argsNoHost fsEmpty (Or.inl (by decide))
